import Mathlib

/-!
Verification development for the serika-cli terminal video player
(src/index.js).  The file embeds the ASCII-art playback pipeline of
`playVideoAscii` — frame assembly, the bounded frame queue, the glyph
renderer, the cancellation listener and the teardown logic — as executable
Lean definitions, and proves the specified properties about them.

The source performs its numeric work in JavaScript numbers (IEEE-754
binary64).  Where the exact rounding behaviour is observable (the
brightness-to-glyph index and the derived height), the embedding models the
double-precision rounding exactly via `roundFrac`; all values arising in
the program stay inside the normal range of binary64, so overflow and
subnormals never occur and are not modelled.
-/

namespace Serika

set_option maxRecDepth 1000000

set_option maxHeartbeats 4000000

/-- Structurally recursive floor of the base-2 logarithm (the fuel only
bounds the recursion depth; `log2floor` passes the argument itself, which
always suffices). -/
def log2Aux : ℕ → ℕ → ℕ
  | 0, _ => 0
  | fuel + 1, n => if 2 ≤ n then log2Aux fuel (n / 2) + 1 else 0

/-- Floor of the base-2 logarithm of a natural number (0 for inputs 0, 1). -/
def log2floor (n : ℕ) : ℕ := log2Aux n n

/-- Decides whether the positive fraction `n / d` is smaller than `2 ^ e`,
working entirely with natural-number arithmetic. -/
def ratLtPow2 (n d : ℕ) (e : ℤ) : Bool :=
  if 0 ≤ e then decide (n < d * 2 ^ e.toNat) else decide (n * 2 ^ (-e).toNat < d)

/-- Rounds the nonnegative fraction `n / d` to the nearest IEEE-754 binary64
value (53-bit significand, ties to even), returning the exact fraction the
rounded double denotes (numerator, positive denominator).  Valid for values
in the normal range, which covers every quantity the program computes;
`0 / d` and the never-occurring `n / 0` return zero.  This is the model of
every arithmetic result the JavaScript source produces: a JavaScript number
holds exactly such a fraction, and every `/`, `*` and numeric literal passes
through this rounding. -/
def roundFrac (n d : ℕ) : ℕ × ℕ :=
  if n = 0 ∨ d = 0 then (0, 1)
  else
    let e0 : ℤ := (log2floor n : ℤ) - (log2floor d : ℤ)
    let e : ℤ := if ratLtPow2 n d e0 then e0 - 1 else e0
    let k : ℤ := 52 - e
    let sN : ℕ := if 0 ≤ k then n * 2 ^ k.toNat else n
    let sD : ℕ := if 0 ≤ k then d else d * 2 ^ (-k).toNat
    let m : ℕ := sN / sD
    let r2 : ℕ := 2 * (sN % sD)
    let m' : ℕ := if r2 > sD ∨ (r2 = sD ∧ m % 2 = 1) then m + 1 else m
    if 0 ≤ e - 52 then (m' * 2 ^ (e - 52).toNat, 1) else (m', 2 ^ (52 - e).toNat)

/-- Double-precision division of two nonnegative double values, each given
as an exact fraction: the exact quotient, rounded to binary64. -/
def jsDiv (a b : ℕ × ℕ) : ℕ × ℕ := roundFrac (a.1 * b.2) (a.2 * b.1)

/-- Double-precision multiplication: the exact product, rounded to binary64. -/
def jsMul (a b : ℕ × ℕ) : ℕ × ℕ := roundFrac (a.1 * b.1) (a.2 * b.2)

/-- `Math.floor` of a nonnegative double value given as a fraction.
Integers below 2^53 (every byte sum, ramp length and width occurring here)
are exactly representable in binary64, so their conversion to a double is
modelled as the identity fraction `(n, 1)`; only the decimal literal `0.55`
needs rounding. -/
def floorD (a : ℕ × ℕ) : ℕ := a.1 / a.2

/-- The named glyph ramps (the CHARSETS table, src/index.js lines 25-30). -/
def CHARSETS : List (String × String) :=
  [("standard", " .:-=+*#%@"),
   ("simple", " .:+@"),
   ("blocks", " ░▒▓█"),
   ("solid", "█")]

/-- The ramp string used by the renderer when the charset access at line 132
does not hit a property inherited from `Object.prototype`: own-key lookup in
the table with fallback to the standard ramp.  The full JavaScript bracket
access, prototype chain included, is modelled by `charsSelected` below;
`charsSelected_eq_charsFor` proves the two agree on every name outside
`objectProtoProps`, which covers every name the settings menu can store. -/
def charsFor (name : String) : String :=
  (CHARSETS.lookup name).getD " .:-=+*#%@"

/-- Result of a JavaScript property access on the CHARSETS object literal:
a string value of the table itself, a truthy non-string value (function or
object) inherited from `Object.prototype`, or `undefined`. -/
inductive JSValue where
  | str (s : String)
  | inherited
  | undefined
deriving Repr, DecidableEq

/-- The property names every object literal inherits from
`Object.prototype` (all of them hold truthy values: methods, or for
`__proto__` the prototype object itself). -/
def objectProtoProps : List String :=
  ["constructor", "hasOwnProperty", "isPrototypeOf", "propertyIsEnumerable",
   "toLocaleString", "toString", "valueOf",
   "__defineGetter__", "__defineSetter__", "__lookupGetter__", "__lookupSetter__",
   "__proto__"]

/-- The JavaScript bracket access `CHARSETS[name]` (line 132) with full
property-lookup semantics: an own key yields its string value; otherwise the
prototype chain is consulted, so the `Object.prototype` property names yield
a truthy inherited non-string value; every other name yields `undefined`. -/
def charsetAccess (name : String) : JSValue :=
  match CHARSETS.lookup name with
  | some v => .str v
  | none => if name ∈ objectProtoProps then .inherited else .undefined

/-- The selection `CHARSETS[charsetName] || CHARSETS.standard` (line 132)
under JavaScript truthiness: an own string value is kept (the empty string,
being falsy, would fall back, though no table value is empty); an inherited
non-string value is truthy and is kept as-is — NO fallback happens; only
`undefined` falls back to the standard ramp. -/
def charsSelected (name : String) : JSValue :=
  match charsetAccess name with
  | .str v => if v = "" then .str " .:-=+*#%@" else .str v
  | .inherited => .inherited
  | .undefined => .str " .:-=+*#%@"

/-- Brightness of a pixel whose byte sum is `s` (line 152):
`(r + g + b) / 3` evaluated in double precision.  The sum of three bytes is
at most 765 and hence exact in binary64; only the division rounds. -/
def jsBrightnessOfSum (s : ℕ) : ℕ × ℕ := jsDiv (s, 1) (3, 1)

/-- Glyph index for a ramp of length `L` and pixel byte sum `s` (line 153):
`Math.floor((brightness / 255) * (chars.length - 1))` with both the division
and the multiplication evaluated in double precision. -/
def idxOfSum (L s : ℕ) : ℕ :=
  floorD (jsMul (jsDiv (jsBrightnessOfSum s) (255, 1)) ((L - 1 : ℕ), 1))

/-- Glyph index of a pixel (lines 148-153): the source sums the three colour
bytes, so the index depends on the pixel only through `r + g + b`. -/
def jsCharIndex (L r g b : ℕ) : ℕ := idxOfSum L (r + g + b)

/-- Modelled from the spec: ramp index `floor(brightness/255 * (rampLength-1))`
with `brightness = (r+g+b)/3`, read in exact rational arithmetic, for
comparison with the code's double-precision computation `idxOfSum`. -/
def specIdxOfSum (L s : ℕ) : ℕ :=
  (Int.floor (((s : ℚ) / 3) / 255 * ((L - 1 : ℕ) : ℚ))).toNat

/-- Derived terminal height (line 89): `Math.floor(width * (9 / 16) * 0.55)`
evaluated in double precision.  `9 / 16` is exact in binary64; the literal
`0.55` and both multiplications round. -/
def jsHeight (w : ℕ) : ℕ :=
  floorD (jsMul (jsMul (w, 1) (jsDiv (9, 1) (16, 1))) (roundFrac 55 100))

/-- Modelled from the spec: `height = floor(width * 9/16 * 0.55)` read in
exact rational arithmetic, for comparison with `jsHeight`. -/
def specHeight (w : ℕ) : ℕ :=
  (Int.floor ((w : ℚ) * (9 / 16) * (55 / 100))).toNat

/-- Bytes per frame (line 122): `width * height * 3`. -/
def frameSizeOf (w h : ℕ) : ℕ := w * h * 3

/-- Lookup table: the double-precision brightness `s / 3` for every byte sum `s < 766`, as exact fractions (stage 1 of the glyph-index pipeline). -/
def brightTable : List (ℕ × ℕ) :=
  [(0, 1),
   (6004799503160661, 18014398509481984),
   (6004799503160661, 9007199254740992),
   (4503599627370496, 4503599627370496),
   (6004799503160661, 4503599627370496),
   (7505999378950827, 4503599627370496),
   (4503599627370496, 2251799813685248),
   (5254199565265579, 2251799813685248),
   (6004799503160661, 2251799813685248),
   (6755399441055744, 2251799813685248),
   (7505999378950827, 2251799813685248),
   (8256599316845909, 2251799813685248),
   (4503599627370496, 1125899906842624),
   (4878899596318037, 1125899906842624),
   (5254199565265579, 1125899906842624),
   (5629499534213120, 1125899906842624),
   (6004799503160661, 1125899906842624),
   (6380099472108203, 1125899906842624),
   (6755399441055744, 1125899906842624),
   (7130699410003285, 1125899906842624),
   (7505999378950827, 1125899906842624),
   (7881299347898368, 1125899906842624),
   (8256599316845909, 1125899906842624),
   (8631899285793451, 1125899906842624),
   (4503599627370496, 562949953421312),
   (4691249611844267, 562949953421312),
   (4878899596318037, 562949953421312),
   (5066549580791808, 562949953421312),
   (5254199565265579, 562949953421312),
   (5441849549739349, 562949953421312),
   (5629499534213120, 562949953421312),
   (5817149518686891, 562949953421312),
   (6004799503160661, 562949953421312),
   (6192449487634432, 562949953421312),
   (6380099472108203, 562949953421312),
   (6567749456581973, 562949953421312),
   (6755399441055744, 562949953421312),
   (6943049425529515, 562949953421312),
   (7130699410003285, 562949953421312),
   (7318349394477056, 562949953421312),
   (7505999378950827, 562949953421312),
   (7693649363424597, 562949953421312),
   (7881299347898368, 562949953421312),
   (8068949332372139, 562949953421312),
   (8256599316845909, 562949953421312),
   (8444249301319680, 562949953421312),
   (8631899285793451, 562949953421312),
   (8819549270267221, 562949953421312),
   (4503599627370496, 281474976710656),
   (4597424619607381, 281474976710656),
   (4691249611844267, 281474976710656),
   (4785074604081152, 281474976710656),
   (4878899596318037, 281474976710656),
   (4972724588554923, 281474976710656),
   (5066549580791808, 281474976710656),
   (5160374573028693, 281474976710656),
   (5254199565265579, 281474976710656),
   (5348024557502464, 281474976710656),
   (5441849549739349, 281474976710656),
   (5535674541976235, 281474976710656),
   (5629499534213120, 281474976710656),
   (5723324526450005, 281474976710656),
   (5817149518686891, 281474976710656),
   (5910974510923776, 281474976710656),
   (6004799503160661, 281474976710656),
   (6098624495397547, 281474976710656),
   (6192449487634432, 281474976710656),
   (6286274479871317, 281474976710656),
   (6380099472108203, 281474976710656),
   (6473924464345088, 281474976710656),
   (6567749456581973, 281474976710656),
   (6661574448818859, 281474976710656),
   (6755399441055744, 281474976710656),
   (6849224433292629, 281474976710656),
   (6943049425529515, 281474976710656),
   (7036874417766400, 281474976710656),
   (7130699410003285, 281474976710656),
   (7224524402240171, 281474976710656),
   (7318349394477056, 281474976710656),
   (7412174386713941, 281474976710656),
   (7505999378950827, 281474976710656),
   (7599824371187712, 281474976710656),
   (7693649363424597, 281474976710656),
   (7787474355661483, 281474976710656),
   (7881299347898368, 281474976710656),
   (7975124340135253, 281474976710656),
   (8068949332372139, 281474976710656),
   (8162774324609024, 281474976710656),
   (8256599316845909, 281474976710656),
   (8350424309082795, 281474976710656),
   (8444249301319680, 281474976710656),
   (8538074293556565, 281474976710656),
   (8631899285793451, 281474976710656),
   (8725724278030336, 281474976710656),
   (8819549270267221, 281474976710656),
   (8913374262504107, 281474976710656),
   (4503599627370496, 140737488355328),
   (4550512123488939, 140737488355328),
   (4597424619607381, 140737488355328),
   (4644337115725824, 140737488355328),
   (4691249611844267, 140737488355328),
   (4738162107962709, 140737488355328),
   (4785074604081152, 140737488355328),
   (4831987100199595, 140737488355328),
   (4878899596318037, 140737488355328),
   (4925812092436480, 140737488355328),
   (4972724588554923, 140737488355328),
   (5019637084673365, 140737488355328),
   (5066549580791808, 140737488355328),
   (5113462076910251, 140737488355328),
   (5160374573028693, 140737488355328),
   (5207287069147136, 140737488355328),
   (5254199565265579, 140737488355328),
   (5301112061384021, 140737488355328),
   (5348024557502464, 140737488355328),
   (5394937053620907, 140737488355328),
   (5441849549739349, 140737488355328),
   (5488762045857792, 140737488355328),
   (5535674541976235, 140737488355328),
   (5582587038094677, 140737488355328),
   (5629499534213120, 140737488355328),
   (5676412030331563, 140737488355328),
   (5723324526450005, 140737488355328),
   (5770237022568448, 140737488355328),
   (5817149518686891, 140737488355328),
   (5864062014805333, 140737488355328),
   (5910974510923776, 140737488355328),
   (5957887007042219, 140737488355328),
   (6004799503160661, 140737488355328),
   (6051711999279104, 140737488355328),
   (6098624495397547, 140737488355328),
   (6145536991515989, 140737488355328),
   (6192449487634432, 140737488355328),
   (6239361983752875, 140737488355328),
   (6286274479871317, 140737488355328),
   (6333186975989760, 140737488355328),
   (6380099472108203, 140737488355328),
   (6427011968226645, 140737488355328),
   (6473924464345088, 140737488355328),
   (6520836960463531, 140737488355328),
   (6567749456581973, 140737488355328),
   (6614661952700416, 140737488355328),
   (6661574448818859, 140737488355328),
   (6708486944937301, 140737488355328),
   (6755399441055744, 140737488355328),
   (6802311937174187, 140737488355328),
   (6849224433292629, 140737488355328),
   (6896136929411072, 140737488355328),
   (6943049425529515, 140737488355328),
   (6989961921647957, 140737488355328),
   (7036874417766400, 140737488355328),
   (7083786913884843, 140737488355328),
   (7130699410003285, 140737488355328),
   (7177611906121728, 140737488355328),
   (7224524402240171, 140737488355328),
   (7271436898358613, 140737488355328),
   (7318349394477056, 140737488355328),
   (7365261890595499, 140737488355328),
   (7412174386713941, 140737488355328),
   (7459086882832384, 140737488355328),
   (7505999378950827, 140737488355328),
   (7552911875069269, 140737488355328),
   (7599824371187712, 140737488355328),
   (7646736867306155, 140737488355328),
   (7693649363424597, 140737488355328),
   (7740561859543040, 140737488355328),
   (7787474355661483, 140737488355328),
   (7834386851779925, 140737488355328),
   (7881299347898368, 140737488355328),
   (7928211844016811, 140737488355328),
   (7975124340135253, 140737488355328),
   (8022036836253696, 140737488355328),
   (8068949332372139, 140737488355328),
   (8115861828490581, 140737488355328),
   (8162774324609024, 140737488355328),
   (8209686820727467, 140737488355328),
   (8256599316845909, 140737488355328),
   (8303511812964352, 140737488355328),
   (8350424309082795, 140737488355328),
   (8397336805201237, 140737488355328),
   (8444249301319680, 140737488355328),
   (8491161797438123, 140737488355328),
   (8538074293556565, 140737488355328),
   (8584986789675008, 140737488355328),
   (8631899285793451, 140737488355328),
   (8678811781911893, 140737488355328),
   (8725724278030336, 140737488355328),
   (8772636774148779, 140737488355328),
   (8819549270267221, 140737488355328),
   (8866461766385664, 140737488355328),
   (8913374262504107, 140737488355328),
   (8960286758622549, 140737488355328),
   (4503599627370496, 70368744177664),
   (4527055875429717, 70368744177664),
   (4550512123488939, 70368744177664),
   (4573968371548160, 70368744177664),
   (4597424619607381, 70368744177664),
   (4620880867666603, 70368744177664),
   (4644337115725824, 70368744177664),
   (4667793363785045, 70368744177664),
   (4691249611844267, 70368744177664),
   (4714705859903488, 70368744177664),
   (4738162107962709, 70368744177664),
   (4761618356021931, 70368744177664),
   (4785074604081152, 70368744177664),
   (4808530852140373, 70368744177664),
   (4831987100199595, 70368744177664),
   (4855443348258816, 70368744177664),
   (4878899596318037, 70368744177664),
   (4902355844377259, 70368744177664),
   (4925812092436480, 70368744177664),
   (4949268340495701, 70368744177664),
   (4972724588554923, 70368744177664),
   (4996180836614144, 70368744177664),
   (5019637084673365, 70368744177664),
   (5043093332732587, 70368744177664),
   (5066549580791808, 70368744177664),
   (5090005828851029, 70368744177664),
   (5113462076910251, 70368744177664),
   (5136918324969472, 70368744177664),
   (5160374573028693, 70368744177664),
   (5183830821087915, 70368744177664),
   (5207287069147136, 70368744177664),
   (5230743317206357, 70368744177664),
   (5254199565265579, 70368744177664),
   (5277655813324800, 70368744177664),
   (5301112061384021, 70368744177664),
   (5324568309443243, 70368744177664),
   (5348024557502464, 70368744177664),
   (5371480805561685, 70368744177664),
   (5394937053620907, 70368744177664),
   (5418393301680128, 70368744177664),
   (5441849549739349, 70368744177664),
   (5465305797798571, 70368744177664),
   (5488762045857792, 70368744177664),
   (5512218293917013, 70368744177664),
   (5535674541976235, 70368744177664),
   (5559130790035456, 70368744177664),
   (5582587038094677, 70368744177664),
   (5606043286153899, 70368744177664),
   (5629499534213120, 70368744177664),
   (5652955782272341, 70368744177664),
   (5676412030331563, 70368744177664),
   (5699868278390784, 70368744177664),
   (5723324526450005, 70368744177664),
   (5746780774509227, 70368744177664),
   (5770237022568448, 70368744177664),
   (5793693270627669, 70368744177664),
   (5817149518686891, 70368744177664),
   (5840605766746112, 70368744177664),
   (5864062014805333, 70368744177664),
   (5887518262864555, 70368744177664),
   (5910974510923776, 70368744177664),
   (5934430758982997, 70368744177664),
   (5957887007042219, 70368744177664),
   (5981343255101440, 70368744177664),
   (6004799503160661, 70368744177664),
   (6028255751219883, 70368744177664),
   (6051711999279104, 70368744177664),
   (6075168247338325, 70368744177664),
   (6098624495397547, 70368744177664),
   (6122080743456768, 70368744177664),
   (6145536991515989, 70368744177664),
   (6168993239575211, 70368744177664),
   (6192449487634432, 70368744177664),
   (6215905735693653, 70368744177664),
   (6239361983752875, 70368744177664),
   (6262818231812096, 70368744177664),
   (6286274479871317, 70368744177664),
   (6309730727930539, 70368744177664),
   (6333186975989760, 70368744177664),
   (6356643224048981, 70368744177664),
   (6380099472108203, 70368744177664),
   (6403555720167424, 70368744177664),
   (6427011968226645, 70368744177664),
   (6450468216285867, 70368744177664),
   (6473924464345088, 70368744177664),
   (6497380712404309, 70368744177664),
   (6520836960463531, 70368744177664),
   (6544293208522752, 70368744177664),
   (6567749456581973, 70368744177664),
   (6591205704641195, 70368744177664),
   (6614661952700416, 70368744177664),
   (6638118200759637, 70368744177664),
   (6661574448818859, 70368744177664),
   (6685030696878080, 70368744177664),
   (6708486944937301, 70368744177664),
   (6731943192996523, 70368744177664),
   (6755399441055744, 70368744177664),
   (6778855689114965, 70368744177664),
   (6802311937174187, 70368744177664),
   (6825768185233408, 70368744177664),
   (6849224433292629, 70368744177664),
   (6872680681351851, 70368744177664),
   (6896136929411072, 70368744177664),
   (6919593177470293, 70368744177664),
   (6943049425529515, 70368744177664),
   (6966505673588736, 70368744177664),
   (6989961921647957, 70368744177664),
   (7013418169707179, 70368744177664),
   (7036874417766400, 70368744177664),
   (7060330665825621, 70368744177664),
   (7083786913884843, 70368744177664),
   (7107243161944064, 70368744177664),
   (7130699410003285, 70368744177664),
   (7154155658062507, 70368744177664),
   (7177611906121728, 70368744177664),
   (7201068154180949, 70368744177664),
   (7224524402240171, 70368744177664),
   (7247980650299392, 70368744177664),
   (7271436898358613, 70368744177664),
   (7294893146417835, 70368744177664),
   (7318349394477056, 70368744177664),
   (7341805642536277, 70368744177664),
   (7365261890595499, 70368744177664),
   (7388718138654720, 70368744177664),
   (7412174386713941, 70368744177664),
   (7435630634773163, 70368744177664),
   (7459086882832384, 70368744177664),
   (7482543130891605, 70368744177664),
   (7505999378950827, 70368744177664),
   (7529455627010048, 70368744177664),
   (7552911875069269, 70368744177664),
   (7576368123128491, 70368744177664),
   (7599824371187712, 70368744177664),
   (7623280619246933, 70368744177664),
   (7646736867306155, 70368744177664),
   (7670193115365376, 70368744177664),
   (7693649363424597, 70368744177664),
   (7717105611483819, 70368744177664),
   (7740561859543040, 70368744177664),
   (7764018107602261, 70368744177664),
   (7787474355661483, 70368744177664),
   (7810930603720704, 70368744177664),
   (7834386851779925, 70368744177664),
   (7857843099839147, 70368744177664),
   (7881299347898368, 70368744177664),
   (7904755595957589, 70368744177664),
   (7928211844016811, 70368744177664),
   (7951668092076032, 70368744177664),
   (7975124340135253, 70368744177664),
   (7998580588194475, 70368744177664),
   (8022036836253696, 70368744177664),
   (8045493084312917, 70368744177664),
   (8068949332372139, 70368744177664),
   (8092405580431360, 70368744177664),
   (8115861828490581, 70368744177664),
   (8139318076549803, 70368744177664),
   (8162774324609024, 70368744177664),
   (8186230572668245, 70368744177664),
   (8209686820727467, 70368744177664),
   (8233143068786688, 70368744177664),
   (8256599316845909, 70368744177664),
   (8280055564905131, 70368744177664),
   (8303511812964352, 70368744177664),
   (8326968061023573, 70368744177664),
   (8350424309082795, 70368744177664),
   (8373880557142016, 70368744177664),
   (8397336805201237, 70368744177664),
   (8420793053260459, 70368744177664),
   (8444249301319680, 70368744177664),
   (8467705549378901, 70368744177664),
   (8491161797438123, 70368744177664),
   (8514618045497344, 70368744177664),
   (8538074293556565, 70368744177664),
   (8561530541615787, 70368744177664),
   (8584986789675008, 70368744177664),
   (8608443037734229, 70368744177664),
   (8631899285793451, 70368744177664),
   (8655355533852672, 70368744177664),
   (8678811781911893, 70368744177664),
   (8702268029971115, 70368744177664),
   (8725724278030336, 70368744177664),
   (8749180526089557, 70368744177664),
   (8772636774148779, 70368744177664),
   (8796093022208000, 70368744177664),
   (8819549270267221, 70368744177664),
   (8843005518326443, 70368744177664),
   (8866461766385664, 70368744177664),
   (8889918014444885, 70368744177664),
   (8913374262504107, 70368744177664),
   (8936830510563328, 70368744177664),
   (8960286758622549, 70368744177664),
   (8983743006681771, 70368744177664),
   (4503599627370496, 35184372088832),
   (4515327751400107, 35184372088832),
   (4527055875429717, 35184372088832),
   (4538783999459328, 35184372088832),
   (4550512123488939, 35184372088832),
   (4562240247518549, 35184372088832),
   (4573968371548160, 35184372088832),
   (4585696495577771, 35184372088832),
   (4597424619607381, 35184372088832),
   (4609152743636992, 35184372088832),
   (4620880867666603, 35184372088832),
   (4632608991696213, 35184372088832),
   (4644337115725824, 35184372088832),
   (4656065239755435, 35184372088832),
   (4667793363785045, 35184372088832),
   (4679521487814656, 35184372088832),
   (4691249611844267, 35184372088832),
   (4702977735873877, 35184372088832),
   (4714705859903488, 35184372088832),
   (4726433983933099, 35184372088832),
   (4738162107962709, 35184372088832),
   (4749890231992320, 35184372088832),
   (4761618356021931, 35184372088832),
   (4773346480051541, 35184372088832),
   (4785074604081152, 35184372088832),
   (4796802728110763, 35184372088832),
   (4808530852140373, 35184372088832),
   (4820258976169984, 35184372088832),
   (4831987100199595, 35184372088832),
   (4843715224229205, 35184372088832),
   (4855443348258816, 35184372088832),
   (4867171472288427, 35184372088832),
   (4878899596318037, 35184372088832),
   (4890627720347648, 35184372088832),
   (4902355844377259, 35184372088832),
   (4914083968406869, 35184372088832),
   (4925812092436480, 35184372088832),
   (4937540216466091, 35184372088832),
   (4949268340495701, 35184372088832),
   (4960996464525312, 35184372088832),
   (4972724588554923, 35184372088832),
   (4984452712584533, 35184372088832),
   (4996180836614144, 35184372088832),
   (5007908960643755, 35184372088832),
   (5019637084673365, 35184372088832),
   (5031365208702976, 35184372088832),
   (5043093332732587, 35184372088832),
   (5054821456762197, 35184372088832),
   (5066549580791808, 35184372088832),
   (5078277704821419, 35184372088832),
   (5090005828851029, 35184372088832),
   (5101733952880640, 35184372088832),
   (5113462076910251, 35184372088832),
   (5125190200939861, 35184372088832),
   (5136918324969472, 35184372088832),
   (5148646448999083, 35184372088832),
   (5160374573028693, 35184372088832),
   (5172102697058304, 35184372088832),
   (5183830821087915, 35184372088832),
   (5195558945117525, 35184372088832),
   (5207287069147136, 35184372088832),
   (5219015193176747, 35184372088832),
   (5230743317206357, 35184372088832),
   (5242471441235968, 35184372088832),
   (5254199565265579, 35184372088832),
   (5265927689295189, 35184372088832),
   (5277655813324800, 35184372088832),
   (5289383937354411, 35184372088832),
   (5301112061384021, 35184372088832),
   (5312840185413632, 35184372088832),
   (5324568309443243, 35184372088832),
   (5336296433472853, 35184372088832),
   (5348024557502464, 35184372088832),
   (5359752681532075, 35184372088832),
   (5371480805561685, 35184372088832),
   (5383208929591296, 35184372088832),
   (5394937053620907, 35184372088832),
   (5406665177650517, 35184372088832),
   (5418393301680128, 35184372088832),
   (5430121425709739, 35184372088832),
   (5441849549739349, 35184372088832),
   (5453577673768960, 35184372088832),
   (5465305797798571, 35184372088832),
   (5477033921828181, 35184372088832),
   (5488762045857792, 35184372088832),
   (5500490169887403, 35184372088832),
   (5512218293917013, 35184372088832),
   (5523946417946624, 35184372088832),
   (5535674541976235, 35184372088832),
   (5547402666005845, 35184372088832),
   (5559130790035456, 35184372088832),
   (5570858914065067, 35184372088832),
   (5582587038094677, 35184372088832),
   (5594315162124288, 35184372088832),
   (5606043286153899, 35184372088832),
   (5617771410183509, 35184372088832),
   (5629499534213120, 35184372088832),
   (5641227658242731, 35184372088832),
   (5652955782272341, 35184372088832),
   (5664683906301952, 35184372088832),
   (5676412030331563, 35184372088832),
   (5688140154361173, 35184372088832),
   (5699868278390784, 35184372088832),
   (5711596402420395, 35184372088832),
   (5723324526450005, 35184372088832),
   (5735052650479616, 35184372088832),
   (5746780774509227, 35184372088832),
   (5758508898538837, 35184372088832),
   (5770237022568448, 35184372088832),
   (5781965146598059, 35184372088832),
   (5793693270627669, 35184372088832),
   (5805421394657280, 35184372088832),
   (5817149518686891, 35184372088832),
   (5828877642716501, 35184372088832),
   (5840605766746112, 35184372088832),
   (5852333890775723, 35184372088832),
   (5864062014805333, 35184372088832),
   (5875790138834944, 35184372088832),
   (5887518262864555, 35184372088832),
   (5899246386894165, 35184372088832),
   (5910974510923776, 35184372088832),
   (5922702634953387, 35184372088832),
   (5934430758982997, 35184372088832),
   (5946158883012608, 35184372088832),
   (5957887007042219, 35184372088832),
   (5969615131071829, 35184372088832),
   (5981343255101440, 35184372088832),
   (5993071379131051, 35184372088832),
   (6004799503160661, 35184372088832),
   (6016527627190272, 35184372088832),
   (6028255751219883, 35184372088832),
   (6039983875249493, 35184372088832),
   (6051711999279104, 35184372088832),
   (6063440123308715, 35184372088832),
   (6075168247338325, 35184372088832),
   (6086896371367936, 35184372088832),
   (6098624495397547, 35184372088832),
   (6110352619427157, 35184372088832),
   (6122080743456768, 35184372088832),
   (6133808867486379, 35184372088832),
   (6145536991515989, 35184372088832),
   (6157265115545600, 35184372088832),
   (6168993239575211, 35184372088832),
   (6180721363604821, 35184372088832),
   (6192449487634432, 35184372088832),
   (6204177611664043, 35184372088832),
   (6215905735693653, 35184372088832),
   (6227633859723264, 35184372088832),
   (6239361983752875, 35184372088832),
   (6251090107782485, 35184372088832),
   (6262818231812096, 35184372088832),
   (6274546355841707, 35184372088832),
   (6286274479871317, 35184372088832),
   (6298002603900928, 35184372088832),
   (6309730727930539, 35184372088832),
   (6321458851960149, 35184372088832),
   (6333186975989760, 35184372088832),
   (6344915100019371, 35184372088832),
   (6356643224048981, 35184372088832),
   (6368371348078592, 35184372088832),
   (6380099472108203, 35184372088832),
   (6391827596137813, 35184372088832),
   (6403555720167424, 35184372088832),
   (6415283844197035, 35184372088832),
   (6427011968226645, 35184372088832),
   (6438740092256256, 35184372088832),
   (6450468216285867, 35184372088832),
   (6462196340315477, 35184372088832),
   (6473924464345088, 35184372088832),
   (6485652588374699, 35184372088832),
   (6497380712404309, 35184372088832),
   (6509108836433920, 35184372088832),
   (6520836960463531, 35184372088832),
   (6532565084493141, 35184372088832),
   (6544293208522752, 35184372088832),
   (6556021332552363, 35184372088832),
   (6567749456581973, 35184372088832),
   (6579477580611584, 35184372088832),
   (6591205704641195, 35184372088832),
   (6602933828670805, 35184372088832),
   (6614661952700416, 35184372088832),
   (6626390076730027, 35184372088832),
   (6638118200759637, 35184372088832),
   (6649846324789248, 35184372088832),
   (6661574448818859, 35184372088832),
   (6673302572848469, 35184372088832),
   (6685030696878080, 35184372088832),
   (6696758820907691, 35184372088832),
   (6708486944937301, 35184372088832),
   (6720215068966912, 35184372088832),
   (6731943192996523, 35184372088832),
   (6743671317026133, 35184372088832),
   (6755399441055744, 35184372088832),
   (6767127565085355, 35184372088832),
   (6778855689114965, 35184372088832),
   (6790583813144576, 35184372088832),
   (6802311937174187, 35184372088832),
   (6814040061203797, 35184372088832),
   (6825768185233408, 35184372088832),
   (6837496309263019, 35184372088832),
   (6849224433292629, 35184372088832),
   (6860952557322240, 35184372088832),
   (6872680681351851, 35184372088832),
   (6884408805381461, 35184372088832),
   (6896136929411072, 35184372088832),
   (6907865053440683, 35184372088832),
   (6919593177470293, 35184372088832),
   (6931321301499904, 35184372088832),
   (6943049425529515, 35184372088832),
   (6954777549559125, 35184372088832),
   (6966505673588736, 35184372088832),
   (6978233797618347, 35184372088832),
   (6989961921647957, 35184372088832),
   (7001690045677568, 35184372088832),
   (7013418169707179, 35184372088832),
   (7025146293736789, 35184372088832),
   (7036874417766400, 35184372088832),
   (7048602541796011, 35184372088832),
   (7060330665825621, 35184372088832),
   (7072058789855232, 35184372088832),
   (7083786913884843, 35184372088832),
   (7095515037914453, 35184372088832),
   (7107243161944064, 35184372088832),
   (7118971285973675, 35184372088832),
   (7130699410003285, 35184372088832),
   (7142427534032896, 35184372088832),
   (7154155658062507, 35184372088832),
   (7165883782092117, 35184372088832),
   (7177611906121728, 35184372088832),
   (7189340030151339, 35184372088832),
   (7201068154180949, 35184372088832),
   (7212796278210560, 35184372088832),
   (7224524402240171, 35184372088832),
   (7236252526269781, 35184372088832),
   (7247980650299392, 35184372088832),
   (7259708774329003, 35184372088832),
   (7271436898358613, 35184372088832),
   (7283165022388224, 35184372088832),
   (7294893146417835, 35184372088832),
   (7306621270447445, 35184372088832),
   (7318349394477056, 35184372088832),
   (7330077518506667, 35184372088832),
   (7341805642536277, 35184372088832),
   (7353533766565888, 35184372088832),
   (7365261890595499, 35184372088832),
   (7376990014625109, 35184372088832),
   (7388718138654720, 35184372088832),
   (7400446262684331, 35184372088832),
   (7412174386713941, 35184372088832),
   (7423902510743552, 35184372088832),
   (7435630634773163, 35184372088832),
   (7447358758802773, 35184372088832),
   (7459086882832384, 35184372088832),
   (7470815006861995, 35184372088832),
   (7482543130891605, 35184372088832),
   (7494271254921216, 35184372088832),
   (7505999378950827, 35184372088832),
   (7517727502980437, 35184372088832),
   (7529455627010048, 35184372088832),
   (7541183751039659, 35184372088832),
   (7552911875069269, 35184372088832),
   (7564639999098880, 35184372088832),
   (7576368123128491, 35184372088832),
   (7588096247158101, 35184372088832),
   (7599824371187712, 35184372088832),
   (7611552495217323, 35184372088832),
   (7623280619246933, 35184372088832),
   (7635008743276544, 35184372088832),
   (7646736867306155, 35184372088832),
   (7658464991335765, 35184372088832),
   (7670193115365376, 35184372088832),
   (7681921239394987, 35184372088832),
   (7693649363424597, 35184372088832),
   (7705377487454208, 35184372088832),
   (7717105611483819, 35184372088832),
   (7728833735513429, 35184372088832),
   (7740561859543040, 35184372088832),
   (7752289983572651, 35184372088832),
   (7764018107602261, 35184372088832),
   (7775746231631872, 35184372088832),
   (7787474355661483, 35184372088832),
   (7799202479691093, 35184372088832),
   (7810930603720704, 35184372088832),
   (7822658727750315, 35184372088832),
   (7834386851779925, 35184372088832),
   (7846114975809536, 35184372088832),
   (7857843099839147, 35184372088832),
   (7869571223868757, 35184372088832),
   (7881299347898368, 35184372088832),
   (7893027471927979, 35184372088832),
   (7904755595957589, 35184372088832),
   (7916483719987200, 35184372088832),
   (7928211844016811, 35184372088832),
   (7939939968046421, 35184372088832),
   (7951668092076032, 35184372088832),
   (7963396216105643, 35184372088832),
   (7975124340135253, 35184372088832),
   (7986852464164864, 35184372088832),
   (7998580588194475, 35184372088832),
   (8010308712224085, 35184372088832),
   (8022036836253696, 35184372088832),
   (8033764960283307, 35184372088832),
   (8045493084312917, 35184372088832),
   (8057221208342528, 35184372088832),
   (8068949332372139, 35184372088832),
   (8080677456401749, 35184372088832),
   (8092405580431360, 35184372088832),
   (8104133704460971, 35184372088832),
   (8115861828490581, 35184372088832),
   (8127589952520192, 35184372088832),
   (8139318076549803, 35184372088832),
   (8151046200579413, 35184372088832),
   (8162774324609024, 35184372088832),
   (8174502448638635, 35184372088832),
   (8186230572668245, 35184372088832),
   (8197958696697856, 35184372088832),
   (8209686820727467, 35184372088832),
   (8221414944757077, 35184372088832),
   (8233143068786688, 35184372088832),
   (8244871192816299, 35184372088832),
   (8256599316845909, 35184372088832),
   (8268327440875520, 35184372088832),
   (8280055564905131, 35184372088832),
   (8291783688934741, 35184372088832),
   (8303511812964352, 35184372088832),
   (8315239936993963, 35184372088832),
   (8326968061023573, 35184372088832),
   (8338696185053184, 35184372088832),
   (8350424309082795, 35184372088832),
   (8362152433112405, 35184372088832),
   (8373880557142016, 35184372088832),
   (8385608681171627, 35184372088832),
   (8397336805201237, 35184372088832),
   (8409064929230848, 35184372088832),
   (8420793053260459, 35184372088832),
   (8432521177290069, 35184372088832),
   (8444249301319680, 35184372088832),
   (8455977425349291, 35184372088832),
   (8467705549378901, 35184372088832),
   (8479433673408512, 35184372088832),
   (8491161797438123, 35184372088832),
   (8502889921467733, 35184372088832),
   (8514618045497344, 35184372088832),
   (8526346169526955, 35184372088832),
   (8538074293556565, 35184372088832),
   (8549802417586176, 35184372088832),
   (8561530541615787, 35184372088832),
   (8573258665645397, 35184372088832),
   (8584986789675008, 35184372088832),
   (8596714913704619, 35184372088832),
   (8608443037734229, 35184372088832),
   (8620171161763840, 35184372088832),
   (8631899285793451, 35184372088832),
   (8643627409823061, 35184372088832),
   (8655355533852672, 35184372088832),
   (8667083657882283, 35184372088832),
   (8678811781911893, 35184372088832),
   (8690539905941504, 35184372088832),
   (8702268029971115, 35184372088832),
   (8713996154000725, 35184372088832),
   (8725724278030336, 35184372088832),
   (8737452402059947, 35184372088832),
   (8749180526089557, 35184372088832),
   (8760908650119168, 35184372088832),
   (8772636774148779, 35184372088832),
   (8784364898178389, 35184372088832),
   (8796093022208000, 35184372088832),
   (8807821146237611, 35184372088832),
   (8819549270267221, 35184372088832),
   (8831277394296832, 35184372088832),
   (8843005518326443, 35184372088832),
   (8854733642356053, 35184372088832),
   (8866461766385664, 35184372088832),
   (8878189890415275, 35184372088832),
   (8889918014444885, 35184372088832),
   (8901646138474496, 35184372088832),
   (8913374262504107, 35184372088832),
   (8925102386533717, 35184372088832),
   (8936830510563328, 35184372088832),
   (8948558634592939, 35184372088832),
   (8960286758622549, 35184372088832),
   (8972014882652160, 35184372088832)]

/-- Lookup table: stage 2 of the pipeline, `brightness / 255` in double precision for every byte sum. -/
def bright255Table : List (ℕ × ℕ) :=
  [(0, 1),
   (6028347736506389, 4611686018427387904),
   (6028347736506389, 2305843009213693952),
   (4521260802379792, 1152921504606846976),
   (6028347736506389, 1152921504606846976),
   (7535434670632987, 1152921504606846976),
   (4521260802379792, 576460752303423488),
   (5274804269443091, 576460752303423488),
   (6028347736506389, 576460752303423488),
   (6781891203569688, 576460752303423488),
   (7535434670632987, 576460752303423488),
   (8288978137696285, 576460752303423488),
   (4521260802379792, 288230376151711744),
   (4898032535911441, 288230376151711744),
   (5274804269443091, 288230376151711744),
   (5651576002974740, 288230376151711744),
   (6028347736506389, 288230376151711744),
   (6405119470038039, 288230376151711744),
   (6781891203569688, 288230376151711744),
   (7158662937101337, 288230376151711744),
   (7535434670632987, 288230376151711744),
   (7912206404164636, 288230376151711744),
   (8288978137696285, 288230376151711744),
   (8665749871227935, 288230376151711744),
   (4521260802379792, 144115188075855872),
   (4709646669145617, 144115188075855872),
   (4898032535911441, 144115188075855872),
   (5086418402677266, 144115188075855872),
   (5274804269443091, 144115188075855872),
   (5463190136208915, 144115188075855872),
   (5651576002974740, 144115188075855872),
   (5839961869740565, 144115188075855872),
   (6028347736506389, 144115188075855872),
   (6216733603272214, 144115188075855872),
   (6405119470038039, 144115188075855872),
   (6593505336803863, 144115188075855872),
   (6781891203569688, 144115188075855872),
   (6970277070335513, 144115188075855872),
   (7158662937101337, 144115188075855872),
   (7347048803867162, 144115188075855872),
   (7535434670632987, 144115188075855872),
   (7723820537398811, 144115188075855872),
   (7912206404164636, 144115188075855872),
   (8100592270930461, 144115188075855872),
   (8288978137696285, 144115188075855872),
   (8477364004462110, 144115188075855872),
   (8665749871227935, 144115188075855872),
   (8854135737993759, 144115188075855872),
   (4521260802379792, 72057594037927936),
   (4615453735762704, 72057594037927936),
   (4709646669145617, 72057594037927936),
   (4803839602528529, 72057594037927936),
   (4898032535911441, 72057594037927936),
   (4992225469294354, 72057594037927936),
   (5086418402677266, 72057594037927936),
   (5180611336060178, 72057594037927936),
   (5274804269443091, 72057594037927936),
   (5368997202826003, 72057594037927936),
   (5463190136208915, 72057594037927936),
   (5557383069591828, 72057594037927936),
   (5651576002974740, 72057594037927936),
   (5745768936357652, 72057594037927936),
   (5839961869740565, 72057594037927936),
   (5934154803123477, 72057594037927936),
   (6028347736506389, 72057594037927936),
   (6122540669889302, 72057594037927936),
   (6216733603272214, 72057594037927936),
   (6310926536655126, 72057594037927936),
   (6405119470038039, 72057594037927936),
   (6499312403420951, 72057594037927936),
   (6593505336803863, 72057594037927936),
   (6687698270186776, 72057594037927936),
   (6781891203569688, 72057594037927936),
   (6876084136952600, 72057594037927936),
   (6970277070335513, 72057594037927936),
   (7064470003718425, 72057594037927936),
   (7158662937101337, 72057594037927936),
   (7252855870484250, 72057594037927936),
   (7347048803867162, 72057594037927936),
   (7441241737250074, 72057594037927936),
   (7535434670632987, 72057594037927936),
   (7629627604015899, 72057594037927936),
   (7723820537398811, 72057594037927936),
   (7818013470781724, 72057594037927936),
   (7912206404164636, 72057594037927936),
   (8006399337547548, 72057594037927936),
   (8100592270930461, 72057594037927936),
   (8194785204313373, 72057594037927936),
   (8288978137696285, 72057594037927936),
   (8383171071079198, 72057594037927936),
   (8477364004462110, 72057594037927936),
   (8571556937845022, 72057594037927936),
   (8665749871227935, 72057594037927936),
   (8759942804610847, 72057594037927936),
   (8854135737993759, 72057594037927936),
   (8948328671376672, 72057594037927936),
   (4521260802379792, 36028797018963968),
   (4568357269071249, 36028797018963968),
   (4615453735762704, 36028797018963968),
   (4662550202454161, 36028797018963968),
   (4709646669145617, 36028797018963968),
   (4756743135837073, 36028797018963968),
   (4803839602528529, 36028797018963968),
   (4850936069219986, 36028797018963968),
   (4898032535911441, 36028797018963968),
   (4945129002602898, 36028797018963968),
   (4992225469294354, 36028797018963968),
   (5039321935985810, 36028797018963968),
   (5086418402677266, 36028797018963968),
   (5133514869368723, 36028797018963968),
   (5180611336060178, 36028797018963968),
   (5227707802751635, 36028797018963968),
   (5274804269443091, 36028797018963968),
   (5321900736134547, 36028797018963968),
   (5368997202826003, 36028797018963968),
   (5416093669517460, 36028797018963968),
   (5463190136208915, 36028797018963968),
   (5510286602900372, 36028797018963968),
   (5557383069591828, 36028797018963968),
   (5604479536283284, 36028797018963968),
   (5651576002974740, 36028797018963968),
   (5698672469666197, 36028797018963968),
   (5745768936357652, 36028797018963968),
   (5792865403049109, 36028797018963968),
   (5839961869740565, 36028797018963968),
   (5887058336432021, 36028797018963968),
   (5934154803123477, 36028797018963968),
   (5981251269814934, 36028797018963968),
   (6028347736506389, 36028797018963968),
   (6075444203197846, 36028797018963968),
   (6122540669889302, 36028797018963968),
   (6169637136580758, 36028797018963968),
   (6216733603272214, 36028797018963968),
   (6263830069963671, 36028797018963968),
   (6310926536655126, 36028797018963968),
   (6358023003346583, 36028797018963968),
   (6405119470038039, 36028797018963968),
   (6452215936729495, 36028797018963968),
   (6499312403420951, 36028797018963968),
   (6546408870112408, 36028797018963968),
   (6593505336803863, 36028797018963968),
   (6640601803495320, 36028797018963968),
   (6687698270186776, 36028797018963968),
   (6734794736878232, 36028797018963968),
   (6781891203569688, 36028797018963968),
   (6828987670261145, 36028797018963968),
   (6876084136952600, 36028797018963968),
   (6923180603644057, 36028797018963968),
   (6970277070335513, 36028797018963968),
   (7017373537026969, 36028797018963968),
   (7064470003718425, 36028797018963968),
   (7111566470409882, 36028797018963968),
   (7158662937101337, 36028797018963968),
   (7205759403792794, 36028797018963968),
   (7252855870484250, 36028797018963968),
   (7299952337175706, 36028797018963968),
   (7347048803867162, 36028797018963968),
   (7394145270558619, 36028797018963968),
   (7441241737250074, 36028797018963968),
   (7488338203941531, 36028797018963968),
   (7535434670632987, 36028797018963968),
   (7582531137324443, 36028797018963968),
   (7629627604015899, 36028797018963968),
   (7676724070707356, 36028797018963968),
   (7723820537398811, 36028797018963968),
   (7770917004090268, 36028797018963968),
   (7818013470781724, 36028797018963968),
   (7865109937473180, 36028797018963968),
   (7912206404164636, 36028797018963968),
   (7959302870856093, 36028797018963968),
   (8006399337547548, 36028797018963968),
   (8053495804239005, 36028797018963968),
   (8100592270930461, 36028797018963968),
   (8147688737621917, 36028797018963968),
   (8194785204313373, 36028797018963968),
   (8241881671004830, 36028797018963968),
   (8288978137696285, 36028797018963968),
   (8336074604387742, 36028797018963968),
   (8383171071079198, 36028797018963968),
   (8430267537770654, 36028797018963968),
   (8477364004462110, 36028797018963968),
   (8524460471153567, 36028797018963968),
   (8571556937845022, 36028797018963968),
   (8618653404536479, 36028797018963968),
   (8665749871227935, 36028797018963968),
   (8712846337919391, 36028797018963968),
   (8759942804610847, 36028797018963968),
   (8807039271302304, 36028797018963968),
   (8854135737993759, 36028797018963968),
   (8901232204685216, 36028797018963968),
   (8948328671376672, 36028797018963968),
   (8995425138068128, 36028797018963968),
   (4521260802379792, 18014398509481984),
   (4544809035725520, 18014398509481984),
   (4568357269071249, 18014398509481984),
   (4591905502416976, 18014398509481984),
   (4615453735762704, 18014398509481984),
   (4639001969108433, 18014398509481984),
   (4662550202454161, 18014398509481984),
   (4686098435799888, 18014398509481984),
   (4709646669145617, 18014398509481984),
   (4733194902491345, 18014398509481984),
   (4756743135837073, 18014398509481984),
   (4780291369182801, 18014398509481984),
   (4803839602528529, 18014398509481984),
   (4827387835874257, 18014398509481984),
   (4850936069219986, 18014398509481984),
   (4874484302565713, 18014398509481984),
   (4898032535911441, 18014398509481984),
   (4921580769257170, 18014398509481984),
   (4945129002602898, 18014398509481984),
   (4968677235948625, 18014398509481984),
   (4992225469294354, 18014398509481984),
   (5015773702640082, 18014398509481984),
   (5039321935985810, 18014398509481984),
   (5062870169331538, 18014398509481984),
   (5086418402677266, 18014398509481984),
   (5109966636022994, 18014398509481984),
   (5133514869368723, 18014398509481984),
   (5157063102714450, 18014398509481984),
   (5180611336060178, 18014398509481984),
   (5204159569405907, 18014398509481984),
   (5227707802751635, 18014398509481984),
   (5251256036097362, 18014398509481984),
   (5274804269443091, 18014398509481984),
   (5298352502788819, 18014398509481984),
   (5321900736134547, 18014398509481984),
   (5345448969480275, 18014398509481984),
   (5368997202826003, 18014398509481984),
   (5392545436171731, 18014398509481984),
   (5416093669517460, 18014398509481984),
   (5439641902863187, 18014398509481984),
   (5463190136208915, 18014398509481984),
   (5486738369554644, 18014398509481984),
   (5510286602900372, 18014398509481984),
   (5533834836246099, 18014398509481984),
   (5557383069591828, 18014398509481984),
   (5580931302937556, 18014398509481984),
   (5604479536283284, 18014398509481984),
   (5628027769629012, 18014398509481984),
   (5651576002974740, 18014398509481984),
   (5675124236320468, 18014398509481984),
   (5698672469666197, 18014398509481984),
   (5722220703011924, 18014398509481984),
   (5745768936357652, 18014398509481984),
   (5769317169703381, 18014398509481984),
   (5792865403049109, 18014398509481984),
   (5816413636394836, 18014398509481984),
   (5839961869740565, 18014398509481984),
   (5863510103086293, 18014398509481984),
   (5887058336432021, 18014398509481984),
   (5910606569777749, 18014398509481984),
   (5934154803123477, 18014398509481984),
   (5957703036469205, 18014398509481984),
   (5981251269814934, 18014398509481984),
   (6004799503160661, 18014398509481984),
   (6028347736506389, 18014398509481984),
   (6051895969852118, 18014398509481984),
   (6075444203197846, 18014398509481984),
   (6098992436543573, 18014398509481984),
   (6122540669889302, 18014398509481984),
   (6146088903235030, 18014398509481984),
   (6169637136580758, 18014398509481984),
   (6193185369926486, 18014398509481984),
   (6216733603272214, 18014398509481984),
   (6240281836617942, 18014398509481984),
   (6263830069963671, 18014398509481984),
   (6287378303309398, 18014398509481984),
   (6310926536655126, 18014398509481984),
   (6334474770000855, 18014398509481984),
   (6358023003346583, 18014398509481984),
   (6381571236692310, 18014398509481984),
   (6405119470038039, 18014398509481984),
   (6428667703383767, 18014398509481984),
   (6452215936729495, 18014398509481984),
   (6475764170075223, 18014398509481984),
   (6499312403420951, 18014398509481984),
   (6522860636766679, 18014398509481984),
   (6546408870112408, 18014398509481984),
   (6569957103458135, 18014398509481984),
   (6593505336803863, 18014398509481984),
   (6617053570149592, 18014398509481984),
   (6640601803495320, 18014398509481984),
   (6664150036841047, 18014398509481984),
   (6687698270186776, 18014398509481984),
   (6711246503532504, 18014398509481984),
   (6734794736878232, 18014398509481984),
   (6758342970223960, 18014398509481984),
   (6781891203569688, 18014398509481984),
   (6805439436915416, 18014398509481984),
   (6828987670261145, 18014398509481984),
   (6852535903606872, 18014398509481984),
   (6876084136952600, 18014398509481984),
   (6899632370298329, 18014398509481984),
   (6923180603644057, 18014398509481984),
   (6946728836989784, 18014398509481984),
   (6970277070335513, 18014398509481984),
   (6993825303681241, 18014398509481984),
   (7017373537026969, 18014398509481984),
   (7040921770372697, 18014398509481984),
   (7064470003718425, 18014398509481984),
   (7088018237064153, 18014398509481984),
   (7111566470409882, 18014398509481984),
   (7135114703755609, 18014398509481984),
   (7158662937101337, 18014398509481984),
   (7182211170447066, 18014398509481984),
   (7205759403792794, 18014398509481984),
   (7229307637138521, 18014398509481984),
   (7252855870484250, 18014398509481984),
   (7276404103829978, 18014398509481984),
   (7299952337175706, 18014398509481984),
   (7323500570521434, 18014398509481984),
   (7347048803867162, 18014398509481984),
   (7370597037212890, 18014398509481984),
   (7394145270558619, 18014398509481984),
   (7417693503904346, 18014398509481984),
   (7441241737250074, 18014398509481984),
   (7464789970595803, 18014398509481984),
   (7488338203941531, 18014398509481984),
   (7511886437287258, 18014398509481984),
   (7535434670632987, 18014398509481984),
   (7558982903978715, 18014398509481984),
   (7582531137324443, 18014398509481984),
   (7606079370670171, 18014398509481984),
   (7629627604015899, 18014398509481984),
   (7653175837361627, 18014398509481984),
   (7676724070707356, 18014398509481984),
   (7700272304053083, 18014398509481984),
   (7723820537398811, 18014398509481984),
   (7747368770744540, 18014398509481984),
   (7770917004090268, 18014398509481984),
   (7794465237435995, 18014398509481984),
   (7818013470781724, 18014398509481984),
   (7841561704127452, 18014398509481984),
   (7865109937473180, 18014398509481984),
   (7888658170818908, 18014398509481984),
   (7912206404164636, 18014398509481984),
   (7935754637510364, 18014398509481984),
   (7959302870856093, 18014398509481984),
   (7982851104201820, 18014398509481984),
   (8006399337547548, 18014398509481984),
   (8029947570893277, 18014398509481984),
   (8053495804239005, 18014398509481984),
   (8077044037584732, 18014398509481984),
   (8100592270930461, 18014398509481984),
   (8124140504276189, 18014398509481984),
   (8147688737621917, 18014398509481984),
   (8171236970967645, 18014398509481984),
   (8194785204313373, 18014398509481984),
   (8218333437659101, 18014398509481984),
   (8241881671004830, 18014398509481984),
   (8265429904350557, 18014398509481984),
   (8288978137696285, 18014398509481984),
   (8312526371042014, 18014398509481984),
   (8336074604387742, 18014398509481984),
   (8359622837733469, 18014398509481984),
   (8383171071079198, 18014398509481984),
   (8406719304424926, 18014398509481984),
   (8430267537770654, 18014398509481984),
   (8453815771116382, 18014398509481984),
   (8477364004462110, 18014398509481984),
   (8500912237807838, 18014398509481984),
   (8524460471153567, 18014398509481984),
   (8548008704499294, 18014398509481984),
   (8571556937845022, 18014398509481984),
   (8595105171190751, 18014398509481984),
   (8618653404536479, 18014398509481984),
   (8642201637882206, 18014398509481984),
   (8665749871227935, 18014398509481984),
   (8689298104573663, 18014398509481984),
   (8712846337919391, 18014398509481984),
   (8736394571265119, 18014398509481984),
   (8759942804610847, 18014398509481984),
   (8783491037956575, 18014398509481984),
   (8807039271302304, 18014398509481984),
   (8830587504648031, 18014398509481984),
   (8854135737993759, 18014398509481984),
   (8877683971339488, 18014398509481984),
   (8901232204685216, 18014398509481984),
   (8924780438030943, 18014398509481984),
   (8948328671376672, 18014398509481984),
   (8971876904722400, 18014398509481984),
   (8995425138068128, 18014398509481984),
   (4509486685706928, 9007199254740992),
   (4521260802379792, 9007199254740992),
   (4533034919052656, 9007199254740992),
   (4544809035725520, 9007199254740992),
   (4556583152398384, 9007199254740992),
   (4568357269071249, 9007199254740992),
   (4580131385744112, 9007199254740992),
   (4591905502416976, 9007199254740992),
   (4603679619089841, 9007199254740992),
   (4615453735762704, 9007199254740992),
   (4627227852435568, 9007199254740992),
   (4639001969108433, 9007199254740992),
   (4650776085781296, 9007199254740992),
   (4662550202454161, 9007199254740992),
   (4674324319127025, 9007199254740992),
   (4686098435799888, 9007199254740992),
   (4697872552472753, 9007199254740992),
   (4709646669145617, 9007199254740992),
   (4721420785818480, 9007199254740992),
   (4733194902491345, 9007199254740992),
   (4744969019164209, 9007199254740992),
   (4756743135837073, 9007199254740992),
   (4768517252509937, 9007199254740992),
   (4780291369182801, 9007199254740992),
   (4792065485855665, 9007199254740992),
   (4803839602528529, 9007199254740992),
   (4815613719201393, 9007199254740992),
   (4827387835874257, 9007199254740992),
   (4839161952547121, 9007199254740992),
   (4850936069219986, 9007199254740992),
   (4862710185892849, 9007199254740992),
   (4874484302565713, 9007199254740992),
   (4886258419238578, 9007199254740992),
   (4898032535911441, 9007199254740992),
   (4909806652584305, 9007199254740992),
   (4921580769257170, 9007199254740992),
   (4933354885930033, 9007199254740992),
   (4945129002602898, 9007199254740992),
   (4956903119275762, 9007199254740992),
   (4968677235948625, 9007199254740992),
   (4980451352621490, 9007199254740992),
   (4992225469294354, 9007199254740992),
   (5003999585967217, 9007199254740992),
   (5015773702640082, 9007199254740992),
   (5027547819312946, 9007199254740992),
   (5039321935985810, 9007199254740992),
   (5051096052658674, 9007199254740992),
   (5062870169331538, 9007199254740992),
   (5074644286004402, 9007199254740992),
   (5086418402677266, 9007199254740992),
   (5098192519350130, 9007199254740992),
   (5109966636022994, 9007199254740992),
   (5121740752695858, 9007199254740992),
   (5133514869368723, 9007199254740992),
   (5145288986041586, 9007199254740992),
   (5157063102714450, 9007199254740992),
   (5168837219387315, 9007199254740992),
   (5180611336060178, 9007199254740992),
   (5192385452733042, 9007199254740992),
   (5204159569405907, 9007199254740992),
   (5215933686078770, 9007199254740992),
   (5227707802751635, 9007199254740992),
   (5239481919424499, 9007199254740992),
   (5251256036097362, 9007199254740992),
   (5263030152770227, 9007199254740992),
   (5274804269443091, 9007199254740992),
   (5286578386115954, 9007199254740992),
   (5298352502788819, 9007199254740992),
   (5310126619461683, 9007199254740992),
   (5321900736134547, 9007199254740992),
   (5333674852807411, 9007199254740992),
   (5345448969480275, 9007199254740992),
   (5357223086153139, 9007199254740992),
   (5368997202826003, 9007199254740992),
   (5380771319498867, 9007199254740992),
   (5392545436171731, 9007199254740992),
   (5404319552844595, 9007199254740992),
   (5416093669517460, 9007199254740992),
   (5427867786190323, 9007199254740992),
   (5439641902863187, 9007199254740992),
   (5451416019536052, 9007199254740992),
   (5463190136208915, 9007199254740992),
   (5474964252881779, 9007199254740992),
   (5486738369554644, 9007199254740992),
   (5498512486227507, 9007199254740992),
   (5510286602900372, 9007199254740992),
   (5522060719573236, 9007199254740992),
   (5533834836246099, 9007199254740992),
   (5545608952918964, 9007199254740992),
   (5557383069591828, 9007199254740992),
   (5569157186264691, 9007199254740992),
   (5580931302937556, 9007199254740992),
   (5592705419610420, 9007199254740992),
   (5604479536283284, 9007199254740992),
   (5616253652956148, 9007199254740992),
   (5628027769629012, 9007199254740992),
   (5639801886301876, 9007199254740992),
   (5651576002974740, 9007199254740992),
   (5663350119647604, 9007199254740992),
   (5675124236320468, 9007199254740992),
   (5686898352993332, 9007199254740992),
   (5698672469666197, 9007199254740992),
   (5710446586339060, 9007199254740992),
   (5722220703011924, 9007199254740992),
   (5733994819684789, 9007199254740992),
   (5745768936357652, 9007199254740992),
   (5757543053030516, 9007199254740992),
   (5769317169703381, 9007199254740992),
   (5781091286376244, 9007199254740992),
   (5792865403049109, 9007199254740992),
   (5804639519721973, 9007199254740992),
   (5816413636394836, 9007199254740992),
   (5828187753067701, 9007199254740992),
   (5839961869740565, 9007199254740992),
   (5851735986413428, 9007199254740992),
   (5863510103086293, 9007199254740992),
   (5875284219759157, 9007199254740992),
   (5887058336432021, 9007199254740992),
   (5898832453104885, 9007199254740992),
   (5910606569777749, 9007199254740992),
   (5922380686450613, 9007199254740992),
   (5934154803123477, 9007199254740992),
   (5945928919796341, 9007199254740992),
   (5957703036469205, 9007199254740992),
   (5969477153142069, 9007199254740992),
   (5981251269814934, 9007199254740992),
   (5993025386487797, 9007199254740992),
   (6004799503160661, 9007199254740992),
   (6016573619833526, 9007199254740992),
   (6028347736506389, 9007199254740992),
   (6040121853179253, 9007199254740992),
   (6051895969852118, 9007199254740992),
   (6063670086524981, 9007199254740992),
   (6075444203197846, 9007199254740992),
   (6087218319870710, 9007199254740992),
   (6098992436543573, 9007199254740992),
   (6110766553216438, 9007199254740992),
   (6122540669889302, 9007199254740992),
   (6134314786562165, 9007199254740992),
   (6146088903235030, 9007199254740992),
   (6157863019907894, 9007199254740992),
   (6169637136580758, 9007199254740992),
   (6181411253253622, 9007199254740992),
   (6193185369926486, 9007199254740992),
   (6204959486599350, 9007199254740992),
   (6216733603272214, 9007199254740992),
   (6228507719945078, 9007199254740992),
   (6240281836617942, 9007199254740992),
   (6252055953290806, 9007199254740992),
   (6263830069963671, 9007199254740992),
   (6275604186636534, 9007199254740992),
   (6287378303309398, 9007199254740992),
   (6299152419982263, 9007199254740992),
   (6310926536655126, 9007199254740992),
   (6322700653327990, 9007199254740992),
   (6334474770000855, 9007199254740992),
   (6346248886673718, 9007199254740992),
   (6358023003346583, 9007199254740992),
   (6369797120019447, 9007199254740992),
   (6381571236692310, 9007199254740992),
   (6393345353365175, 9007199254740992),
   (6405119470038039, 9007199254740992),
   (6416893586710902, 9007199254740992),
   (6428667703383767, 9007199254740992),
   (6440441820056631, 9007199254740992),
   (6452215936729495, 9007199254740992),
   (6463990053402359, 9007199254740992),
   (6475764170075223, 9007199254740992),
   (6487538286748087, 9007199254740992),
   (6499312403420951, 9007199254740992),
   (6511086520093815, 9007199254740992),
   (6522860636766679, 9007199254740992),
   (6534634753439543, 9007199254740992),
   (6546408870112408, 9007199254740992),
   (6558182986785271, 9007199254740992),
   (6569957103458135, 9007199254740992),
   (6581731220131000, 9007199254740992),
   (6593505336803863, 9007199254740992),
   (6605279453476727, 9007199254740992),
   (6617053570149592, 9007199254740992),
   (6628827686822455, 9007199254740992),
   (6640601803495320, 9007199254740992),
   (6652375920168184, 9007199254740992),
   (6664150036841047, 9007199254740992),
   (6675924153513912, 9007199254740992),
   (6687698270186776, 9007199254740992),
   (6699472386859639, 9007199254740992),
   (6711246503532504, 9007199254740992),
   (6723020620205368, 9007199254740992),
   (6734794736878232, 9007199254740992),
   (6746568853551096, 9007199254740992),
   (6758342970223960, 9007199254740992),
   (6770117086896824, 9007199254740992),
   (6781891203569688, 9007199254740992),
   (6793665320242552, 9007199254740992),
   (6805439436915416, 9007199254740992),
   (6817213553588280, 9007199254740992),
   (6828987670261145, 9007199254740992),
   (6840761786934008, 9007199254740992),
   (6852535903606872, 9007199254740992),
   (6864310020279737, 9007199254740992),
   (6876084136952600, 9007199254740992),
   (6887858253625464, 9007199254740992),
   (6899632370298329, 9007199254740992),
   (6911406486971192, 9007199254740992),
   (6923180603644057, 9007199254740992),
   (6934954720316921, 9007199254740992),
   (6946728836989784, 9007199254740992),
   (6958502953662649, 9007199254740992),
   (6970277070335513, 9007199254740992),
   (6982051187008376, 9007199254740992),
   (6993825303681241, 9007199254740992),
   (7005599420354105, 9007199254740992),
   (7017373537026969, 9007199254740992),
   (7029147653699833, 9007199254740992),
   (7040921770372697, 9007199254740992),
   (7052695887045561, 9007199254740992),
   (7064470003718425, 9007199254740992),
   (7076244120391289, 9007199254740992),
   (7088018237064153, 9007199254740992),
   (7099792353737017, 9007199254740992),
   (7111566470409882, 9007199254740992),
   (7123340587082745, 9007199254740992),
   (7135114703755609, 9007199254740992),
   (7146888820428474, 9007199254740992),
   (7158662937101337, 9007199254740992),
   (7170437053774201, 9007199254740992),
   (7182211170447066, 9007199254740992),
   (7193985287119929, 9007199254740992),
   (7205759403792794, 9007199254740992),
   (7217533520465658, 9007199254740992),
   (7229307637138521, 9007199254740992),
   (7241081753811386, 9007199254740992),
   (7252855870484250, 9007199254740992),
   (7264629987157113, 9007199254740992),
   (7276404103829978, 9007199254740992),
   (7288178220502842, 9007199254740992),
   (7299952337175706, 9007199254740992),
   (7311726453848570, 9007199254740992),
   (7323500570521434, 9007199254740992),
   (7335274687194298, 9007199254740992),
   (7347048803867162, 9007199254740992),
   (7358822920540026, 9007199254740992),
   (7370597037212890, 9007199254740992),
   (7382371153885754, 9007199254740992),
   (7394145270558619, 9007199254740992),
   (7405919387231482, 9007199254740992),
   (7417693503904346, 9007199254740992),
   (7429467620577211, 9007199254740992),
   (7441241737250074, 9007199254740992),
   (7453015853922938, 9007199254740992),
   (7464789970595803, 9007199254740992),
   (7476564087268666, 9007199254740992),
   (7488338203941531, 9007199254740992),
   (7500112320614395, 9007199254740992),
   (7511886437287258, 9007199254740992),
   (7523660553960123, 9007199254740992),
   (7535434670632987, 9007199254740992),
   (7547208787305850, 9007199254740992),
   (7558982903978715, 9007199254740992),
   (7570757020651579, 9007199254740992),
   (7582531137324443, 9007199254740992),
   (7594305253997307, 9007199254740992),
   (7606079370670171, 9007199254740992),
   (7617853487343035, 9007199254740992),
   (7629627604015899, 9007199254740992),
   (7641401720688763, 9007199254740992),
   (7653175837361627, 9007199254740992),
   (7664949954034491, 9007199254740992),
   (7676724070707356, 9007199254740992),
   (7688498187380219, 9007199254740992),
   (7700272304053083, 9007199254740992),
   (7712046420725948, 9007199254740992),
   (7723820537398811, 9007199254740992),
   (7735594654071675, 9007199254740992),
   (7747368770744540, 9007199254740992),
   (7759142887417403, 9007199254740992),
   (7770917004090268, 9007199254740992),
   (7782691120763132, 9007199254740992),
   (7794465237435995, 9007199254740992),
   (7806239354108860, 9007199254740992),
   (7818013470781724, 9007199254740992),
   (7829787587454587, 9007199254740992),
   (7841561704127452, 9007199254740992),
   (7853335820800316, 9007199254740992),
   (7865109937473180, 9007199254740992),
   (7876884054146044, 9007199254740992),
   (7888658170818908, 9007199254740992),
   (7900432287491772, 9007199254740992),
   (7912206404164636, 9007199254740992),
   (7923980520837500, 9007199254740992),
   (7935754637510364, 9007199254740992),
   (7947528754183228, 9007199254740992),
   (7959302870856093, 9007199254740992),
   (7971076987528956, 9007199254740992),
   (7982851104201820, 9007199254740992),
   (7994625220874685, 9007199254740992),
   (8006399337547548, 9007199254740992),
   (8018173454220412, 9007199254740992),
   (8029947570893277, 9007199254740992),
   (8041721687566140, 9007199254740992),
   (8053495804239005, 9007199254740992),
   (8065269920911869, 9007199254740992),
   (8077044037584732, 9007199254740992),
   (8088818154257597, 9007199254740992),
   (8100592270930461, 9007199254740992),
   (8112366387603324, 9007199254740992),
   (8124140504276189, 9007199254740992),
   (8135914620949053, 9007199254740992),
   (8147688737621917, 9007199254740992),
   (8159462854294781, 9007199254740992),
   (8171236970967645, 9007199254740992),
   (8183011087640509, 9007199254740992),
   (8194785204313373, 9007199254740992),
   (8206559320986237, 9007199254740992),
   (8218333437659101, 9007199254740992),
   (8230107554331965, 9007199254740992),
   (8241881671004830, 9007199254740992),
   (8253655787677693, 9007199254740992),
   (8265429904350557, 9007199254740992),
   (8277204021023422, 9007199254740992),
   (8288978137696285, 9007199254740992),
   (8300752254369149, 9007199254740992),
   (8312526371042014, 9007199254740992),
   (8324300487714877, 9007199254740992),
   (8336074604387742, 9007199254740992),
   (8347848721060606, 9007199254740992),
   (8359622837733469, 9007199254740992),
   (8371396954406334, 9007199254740992),
   (8383171071079198, 9007199254740992),
   (8394945187752061, 9007199254740992),
   (8406719304424926, 9007199254740992),
   (8418493421097790, 9007199254740992),
   (8430267537770654, 9007199254740992),
   (8442041654443518, 9007199254740992),
   (8453815771116382, 9007199254740992),
   (8465589887789246, 9007199254740992),
   (8477364004462110, 9007199254740992),
   (8489138121134974, 9007199254740992),
   (8500912237807838, 9007199254740992),
   (8512686354480702, 9007199254740992),
   (8524460471153567, 9007199254740992),
   (8536234587826430, 9007199254740992),
   (8548008704499294, 9007199254740992),
   (8559782821172159, 9007199254740992),
   (8571556937845022, 9007199254740992),
   (8583331054517886, 9007199254740992),
   (8595105171190751, 9007199254740992),
   (8606879287863614, 9007199254740992),
   (8618653404536479, 9007199254740992),
   (8630427521209343, 9007199254740992),
   (8642201637882206, 9007199254740992),
   (8653975754555071, 9007199254740992),
   (8665749871227935, 9007199254740992),
   (8677523987900798, 9007199254740992),
   (8689298104573663, 9007199254740992),
   (8701072221246527, 9007199254740992),
   (8712846337919391, 9007199254740992),
   (8724620454592255, 9007199254740992),
   (8736394571265119, 9007199254740992),
   (8748168687937983, 9007199254740992),
   (8759942804610847, 9007199254740992),
   (8771716921283711, 9007199254740992),
   (8783491037956575, 9007199254740992),
   (8795265154629439, 9007199254740992),
   (8807039271302304, 9007199254740992),
   (8818813387975167, 9007199254740992),
   (8830587504648031, 9007199254740992),
   (8842361621320896, 9007199254740992),
   (8854135737993759, 9007199254740992),
   (8865909854666623, 9007199254740992),
   (8877683971339488, 9007199254740992),
   (8889458088012351, 9007199254740992),
   (8901232204685216, 9007199254740992),
   (8913006321358080, 9007199254740992),
   (8924780438030943, 9007199254740992),
   (8936554554703808, 9007199254740992),
   (8948328671376672, 9007199254740992),
   (8960102788049535, 9007199254740992),
   (8971876904722400, 9007199254740992),
   (8983651021395264, 9007199254740992),
   (8995425138068128, 9007199254740992),
   (4503599627370496, 4503599627370496)]

/-- First 512 entries of `heightMulTable`. -/
def heightMulTable0 : List (ℕ × ℕ) :=
  [(0, 1),
   (5066549580791808, 9007199254740992),
   (5066549580791808, 4503599627370496),
   (7599824371187712, 4503599627370496),
   (5066549580791808, 2251799813685248),
   (6333186975989760, 2251799813685248),
   (7599824371187712, 2251799813685248),
   (8866461766385664, 2251799813685248),
   (5066549580791808, 1125899906842624),
   (5699868278390784, 1125899906842624),
   (6333186975989760, 1125899906842624),
   (6966505673588736, 1125899906842624),
   (7599824371187712, 1125899906842624),
   (8233143068786688, 1125899906842624),
   (8866461766385664, 1125899906842624),
   (4749890231992320, 562949953421312),
   (5066549580791808, 562949953421312),
   (5383208929591296, 562949953421312),
   (5699868278390784, 562949953421312),
   (6016527627190272, 562949953421312),
   (6333186975989760, 562949953421312),
   (6649846324789248, 562949953421312),
   (6966505673588736, 562949953421312),
   (7283165022388224, 562949953421312),
   (7599824371187712, 562949953421312),
   (7916483719987200, 562949953421312),
   (8233143068786688, 562949953421312),
   (8549802417586176, 562949953421312),
   (8866461766385664, 562949953421312),
   (4591560557592576, 281474976710656),
   (4749890231992320, 281474976710656),
   (4908219906392064, 281474976710656),
   (5066549580791808, 281474976710656),
   (5224879255191552, 281474976710656),
   (5383208929591296, 281474976710656),
   (5541538603991040, 281474976710656),
   (5699868278390784, 281474976710656),
   (5858197952790528, 281474976710656),
   (6016527627190272, 281474976710656),
   (6174857301590016, 281474976710656),
   (6333186975989760, 281474976710656),
   (6491516650389504, 281474976710656),
   (6649846324789248, 281474976710656),
   (6808175999188992, 281474976710656),
   (6966505673588736, 281474976710656),
   (7124835347988480, 281474976710656),
   (7283165022388224, 281474976710656),
   (7441494696787968, 281474976710656),
   (7599824371187712, 281474976710656),
   (7758154045587456, 281474976710656),
   (7916483719987200, 281474976710656),
   (8074813394386944, 281474976710656),
   (8233143068786688, 281474976710656),
   (8391472743186432, 281474976710656),
   (8549802417586176, 281474976710656),
   (8708132091985920, 281474976710656),
   (8866461766385664, 281474976710656),
   (4512395720392704, 140737488355328),
   (4591560557592576, 140737488355328),
   (4670725394792448, 140737488355328),
   (4749890231992320, 140737488355328),
   (4829055069192192, 140737488355328),
   (4908219906392064, 140737488355328),
   (4987384743591936, 140737488355328),
   (5066549580791808, 140737488355328),
   (5145714417991680, 140737488355328),
   (5224879255191552, 140737488355328),
   (5304044092391424, 140737488355328),
   (5383208929591296, 140737488355328),
   (5462373766791168, 140737488355328),
   (5541538603991040, 140737488355328),
   (5620703441190912, 140737488355328),
   (5699868278390784, 140737488355328),
   (5779033115590656, 140737488355328),
   (5858197952790528, 140737488355328),
   (5937362789990400, 140737488355328),
   (6016527627190272, 140737488355328),
   (6095692464390144, 140737488355328),
   (6174857301590016, 140737488355328),
   (6254022138789888, 140737488355328),
   (6333186975989760, 140737488355328),
   (6412351813189632, 140737488355328),
   (6491516650389504, 140737488355328),
   (6570681487589376, 140737488355328),
   (6649846324789248, 140737488355328),
   (6729011161989120, 140737488355328),
   (6808175999188992, 140737488355328),
   (6887340836388864, 140737488355328),
   (6966505673588736, 140737488355328),
   (7045670510788608, 140737488355328),
   (7124835347988480, 140737488355328),
   (7204000185188352, 140737488355328),
   (7283165022388224, 140737488355328),
   (7362329859588096, 140737488355328),
   (7441494696787968, 140737488355328),
   (7520659533987840, 140737488355328),
   (7599824371187712, 140737488355328),
   (7678989208387584, 140737488355328),
   (7758154045587456, 140737488355328),
   (7837318882787328, 140737488355328),
   (7916483719987200, 140737488355328),
   (7995648557187072, 140737488355328),
   (8074813394386944, 140737488355328),
   (8153978231586816, 140737488355328),
   (8233143068786688, 140737488355328),
   (8312307905986560, 140737488355328),
   (8391472743186432, 140737488355328),
   (8470637580386304, 140737488355328),
   (8549802417586176, 140737488355328),
   (8628967254786048, 140737488355328),
   (8708132091985920, 140737488355328),
   (8787296929185792, 140737488355328),
   (8866461766385664, 140737488355328),
   (8945626603585536, 140737488355328),
   (4512395720392704, 70368744177664),
   (4551978138992640, 70368744177664),
   (4591560557592576, 70368744177664),
   (4631142976192512, 70368744177664),
   (4670725394792448, 70368744177664),
   (4710307813392384, 70368744177664),
   (4749890231992320, 70368744177664),
   (4789472650592256, 70368744177664),
   (4829055069192192, 70368744177664),
   (4868637487792128, 70368744177664),
   (4908219906392064, 70368744177664),
   (4947802324992000, 70368744177664),
   (4987384743591936, 70368744177664),
   (5026967162191872, 70368744177664),
   (5066549580791808, 70368744177664),
   (5106131999391744, 70368744177664),
   (5145714417991680, 70368744177664),
   (5185296836591616, 70368744177664),
   (5224879255191552, 70368744177664),
   (5264461673791488, 70368744177664),
   (5304044092391424, 70368744177664),
   (5343626510991360, 70368744177664),
   (5383208929591296, 70368744177664),
   (5422791348191232, 70368744177664),
   (5462373766791168, 70368744177664),
   (5501956185391104, 70368744177664),
   (5541538603991040, 70368744177664),
   (5581121022590976, 70368744177664),
   (5620703441190912, 70368744177664),
   (5660285859790848, 70368744177664),
   (5699868278390784, 70368744177664),
   (5739450696990720, 70368744177664),
   (5779033115590656, 70368744177664),
   (5818615534190592, 70368744177664),
   (5858197952790528, 70368744177664),
   (5897780371390464, 70368744177664),
   (5937362789990400, 70368744177664),
   (5976945208590336, 70368744177664),
   (6016527627190272, 70368744177664),
   (6056110045790208, 70368744177664),
   (6095692464390144, 70368744177664),
   (6135274882990080, 70368744177664),
   (6174857301590016, 70368744177664),
   (6214439720189952, 70368744177664),
   (6254022138789888, 70368744177664),
   (6293604557389824, 70368744177664),
   (6333186975989760, 70368744177664),
   (6372769394589696, 70368744177664),
   (6412351813189632, 70368744177664),
   (6451934231789568, 70368744177664),
   (6491516650389504, 70368744177664),
   (6531099068989440, 70368744177664),
   (6570681487589376, 70368744177664),
   (6610263906189312, 70368744177664),
   (6649846324789248, 70368744177664),
   (6689428743389184, 70368744177664),
   (6729011161989120, 70368744177664),
   (6768593580589056, 70368744177664),
   (6808175999188992, 70368744177664),
   (6847758417788928, 70368744177664),
   (6887340836388864, 70368744177664),
   (6926923254988800, 70368744177664),
   (6966505673588736, 70368744177664),
   (7006088092188672, 70368744177664),
   (7045670510788608, 70368744177664),
   (7085252929388544, 70368744177664),
   (7124835347988480, 70368744177664),
   (7164417766588416, 70368744177664),
   (7204000185188352, 70368744177664),
   (7243582603788288, 70368744177664),
   (7283165022388224, 70368744177664),
   (7322747440988160, 70368744177664),
   (7362329859588096, 70368744177664),
   (7401912278188032, 70368744177664),
   (7441494696787968, 70368744177664),
   (7481077115387904, 70368744177664),
   (7520659533987840, 70368744177664),
   (7560241952587776, 70368744177664),
   (7599824371187712, 70368744177664),
   (7639406789787648, 70368744177664),
   (7678989208387584, 70368744177664),
   (7718571626987520, 70368744177664),
   (7758154045587456, 70368744177664),
   (7797736464187392, 70368744177664),
   (7837318882787328, 70368744177664),
   (7876901301387264, 70368744177664),
   (7916483719987200, 70368744177664),
   (7956066138587136, 70368744177664),
   (7995648557187072, 70368744177664),
   (8035230975787008, 70368744177664),
   (8074813394386944, 70368744177664),
   (8114395812986880, 70368744177664),
   (8153978231586816, 70368744177664),
   (8193560650186752, 70368744177664),
   (8233143068786688, 70368744177664),
   (8272725487386624, 70368744177664),
   (8312307905986560, 70368744177664),
   (8351890324586496, 70368744177664),
   (8391472743186432, 70368744177664),
   (8431055161786368, 70368744177664),
   (8470637580386304, 70368744177664),
   (8510219998986240, 70368744177664),
   (8549802417586176, 70368744177664),
   (8589384836186112, 70368744177664),
   (8628967254786048, 70368744177664),
   (8668549673385984, 70368744177664),
   (8708132091985920, 70368744177664),
   (8747714510585856, 70368744177664),
   (8787296929185792, 70368744177664),
   (8826879347785728, 70368744177664),
   (8866461766385664, 70368744177664),
   (8906044184985600, 70368744177664),
   (8945626603585536, 70368744177664),
   (8985209022185472, 70368744177664),
   (4512395720392704, 35184372088832),
   (4532186929692672, 35184372088832),
   (4551978138992640, 35184372088832),
   (4571769348292608, 35184372088832),
   (4591560557592576, 35184372088832),
   (4611351766892544, 35184372088832),
   (4631142976192512, 35184372088832),
   (4650934185492480, 35184372088832),
   (4670725394792448, 35184372088832),
   (4690516604092416, 35184372088832),
   (4710307813392384, 35184372088832),
   (4730099022692352, 35184372088832),
   (4749890231992320, 35184372088832),
   (4769681441292288, 35184372088832),
   (4789472650592256, 35184372088832),
   (4809263859892224, 35184372088832),
   (4829055069192192, 35184372088832),
   (4848846278492160, 35184372088832),
   (4868637487792128, 35184372088832),
   (4888428697092096, 35184372088832),
   (4908219906392064, 35184372088832),
   (4928011115692032, 35184372088832),
   (4947802324992000, 35184372088832),
   (4967593534291968, 35184372088832),
   (4987384743591936, 35184372088832),
   (5007175952891904, 35184372088832),
   (5026967162191872, 35184372088832),
   (5046758371491840, 35184372088832),
   (5066549580791808, 35184372088832),
   (5086340790091776, 35184372088832),
   (5106131999391744, 35184372088832),
   (5125923208691712, 35184372088832),
   (5145714417991680, 35184372088832),
   (5165505627291648, 35184372088832),
   (5185296836591616, 35184372088832),
   (5205088045891584, 35184372088832),
   (5224879255191552, 35184372088832),
   (5244670464491520, 35184372088832),
   (5264461673791488, 35184372088832),
   (5284252883091456, 35184372088832),
   (5304044092391424, 35184372088832),
   (5323835301691392, 35184372088832),
   (5343626510991360, 35184372088832),
   (5363417720291328, 35184372088832),
   (5383208929591296, 35184372088832),
   (5403000138891264, 35184372088832),
   (5422791348191232, 35184372088832),
   (5442582557491200, 35184372088832),
   (5462373766791168, 35184372088832),
   (5482164976091136, 35184372088832),
   (5501956185391104, 35184372088832),
   (5521747394691072, 35184372088832),
   (5541538603991040, 35184372088832),
   (5561329813291008, 35184372088832),
   (5581121022590976, 35184372088832),
   (5600912231890944, 35184372088832),
   (5620703441190912, 35184372088832),
   (5640494650490880, 35184372088832),
   (5660285859790848, 35184372088832),
   (5680077069090816, 35184372088832),
   (5699868278390784, 35184372088832),
   (5719659487690752, 35184372088832),
   (5739450696990720, 35184372088832),
   (5759241906290688, 35184372088832),
   (5779033115590656, 35184372088832),
   (5798824324890624, 35184372088832),
   (5818615534190592, 35184372088832),
   (5838406743490560, 35184372088832),
   (5858197952790528, 35184372088832),
   (5877989162090496, 35184372088832),
   (5897780371390464, 35184372088832),
   (5917571580690432, 35184372088832),
   (5937362789990400, 35184372088832),
   (5957153999290368, 35184372088832),
   (5976945208590336, 35184372088832),
   (5996736417890304, 35184372088832),
   (6016527627190272, 35184372088832),
   (6036318836490240, 35184372088832),
   (6056110045790208, 35184372088832),
   (6075901255090176, 35184372088832),
   (6095692464390144, 35184372088832),
   (6115483673690112, 35184372088832),
   (6135274882990080, 35184372088832),
   (6155066092290048, 35184372088832),
   (6174857301590016, 35184372088832),
   (6194648510889984, 35184372088832),
   (6214439720189952, 35184372088832),
   (6234230929489920, 35184372088832),
   (6254022138789888, 35184372088832),
   (6273813348089856, 35184372088832),
   (6293604557389824, 35184372088832),
   (6313395766689792, 35184372088832),
   (6333186975989760, 35184372088832),
   (6352978185289728, 35184372088832),
   (6372769394589696, 35184372088832),
   (6392560603889664, 35184372088832),
   (6412351813189632, 35184372088832),
   (6432143022489600, 35184372088832),
   (6451934231789568, 35184372088832),
   (6471725441089536, 35184372088832),
   (6491516650389504, 35184372088832),
   (6511307859689472, 35184372088832),
   (6531099068989440, 35184372088832),
   (6550890278289408, 35184372088832),
   (6570681487589376, 35184372088832),
   (6590472696889344, 35184372088832),
   (6610263906189312, 35184372088832),
   (6630055115489280, 35184372088832),
   (6649846324789248, 35184372088832),
   (6669637534089216, 35184372088832),
   (6689428743389184, 35184372088832),
   (6709219952689152, 35184372088832),
   (6729011161989120, 35184372088832),
   (6748802371289088, 35184372088832),
   (6768593580589056, 35184372088832),
   (6788384789889024, 35184372088832),
   (6808175999188992, 35184372088832),
   (6827967208488960, 35184372088832),
   (6847758417788928, 35184372088832),
   (6867549627088896, 35184372088832),
   (6887340836388864, 35184372088832),
   (6907132045688832, 35184372088832),
   (6926923254988800, 35184372088832),
   (6946714464288768, 35184372088832),
   (6966505673588736, 35184372088832),
   (6986296882888704, 35184372088832),
   (7006088092188672, 35184372088832),
   (7025879301488640, 35184372088832),
   (7045670510788608, 35184372088832),
   (7065461720088576, 35184372088832),
   (7085252929388544, 35184372088832),
   (7105044138688512, 35184372088832),
   (7124835347988480, 35184372088832),
   (7144626557288448, 35184372088832),
   (7164417766588416, 35184372088832),
   (7184208975888384, 35184372088832),
   (7204000185188352, 35184372088832),
   (7223791394488320, 35184372088832),
   (7243582603788288, 35184372088832),
   (7263373813088256, 35184372088832),
   (7283165022388224, 35184372088832),
   (7302956231688192, 35184372088832),
   (7322747440988160, 35184372088832),
   (7342538650288128, 35184372088832),
   (7362329859588096, 35184372088832),
   (7382121068888064, 35184372088832),
   (7401912278188032, 35184372088832),
   (7421703487488000, 35184372088832),
   (7441494696787968, 35184372088832),
   (7461285906087936, 35184372088832),
   (7481077115387904, 35184372088832),
   (7500868324687872, 35184372088832),
   (7520659533987840, 35184372088832),
   (7540450743287808, 35184372088832),
   (7560241952587776, 35184372088832),
   (7580033161887744, 35184372088832),
   (7599824371187712, 35184372088832),
   (7619615580487680, 35184372088832),
   (7639406789787648, 35184372088832),
   (7659197999087616, 35184372088832),
   (7678989208387584, 35184372088832),
   (7698780417687552, 35184372088832),
   (7718571626987520, 35184372088832),
   (7738362836287488, 35184372088832),
   (7758154045587456, 35184372088832),
   (7777945254887424, 35184372088832),
   (7797736464187392, 35184372088832),
   (7817527673487360, 35184372088832),
   (7837318882787328, 35184372088832),
   (7857110092087296, 35184372088832),
   (7876901301387264, 35184372088832),
   (7896692510687232, 35184372088832),
   (7916483719987200, 35184372088832),
   (7936274929287168, 35184372088832),
   (7956066138587136, 35184372088832),
   (7975857347887104, 35184372088832),
   (7995648557187072, 35184372088832),
   (8015439766487040, 35184372088832),
   (8035230975787008, 35184372088832),
   (8055022185086976, 35184372088832),
   (8074813394386944, 35184372088832),
   (8094604603686912, 35184372088832),
   (8114395812986880, 35184372088832),
   (8134187022286848, 35184372088832),
   (8153978231586816, 35184372088832),
   (8173769440886784, 35184372088832),
   (8193560650186752, 35184372088832),
   (8213351859486720, 35184372088832),
   (8233143068786688, 35184372088832),
   (8252934278086656, 35184372088832),
   (8272725487386624, 35184372088832),
   (8292516696686592, 35184372088832),
   (8312307905986560, 35184372088832),
   (8332099115286528, 35184372088832),
   (8351890324586496, 35184372088832),
   (8371681533886464, 35184372088832),
   (8391472743186432, 35184372088832),
   (8411263952486400, 35184372088832),
   (8431055161786368, 35184372088832),
   (8450846371086336, 35184372088832),
   (8470637580386304, 35184372088832),
   (8490428789686272, 35184372088832),
   (8510219998986240, 35184372088832),
   (8530011208286208, 35184372088832),
   (8549802417586176, 35184372088832),
   (8569593626886144, 35184372088832),
   (8589384836186112, 35184372088832),
   (8609176045486080, 35184372088832),
   (8628967254786048, 35184372088832),
   (8648758464086016, 35184372088832),
   (8668549673385984, 35184372088832),
   (8688340882685952, 35184372088832),
   (8708132091985920, 35184372088832),
   (8727923301285888, 35184372088832),
   (8747714510585856, 35184372088832),
   (8767505719885824, 35184372088832),
   (8787296929185792, 35184372088832),
   (8807088138485760, 35184372088832),
   (8826879347785728, 35184372088832),
   (8846670557085696, 35184372088832),
   (8866461766385664, 35184372088832),
   (8886252975685632, 35184372088832),
   (8906044184985600, 35184372088832),
   (8925835394285568, 35184372088832),
   (8945626603585536, 35184372088832),
   (8965417812885504, 35184372088832),
   (8985209022185472, 35184372088832),
   (9005000231485440, 35184372088832),
   (4512395720392704, 17592186044416),
   (4522291325042688, 17592186044416),
   (4532186929692672, 17592186044416),
   (4542082534342656, 17592186044416),
   (4551978138992640, 17592186044416),
   (4561873743642624, 17592186044416),
   (4571769348292608, 17592186044416),
   (4581664952942592, 17592186044416),
   (4591560557592576, 17592186044416),
   (4601456162242560, 17592186044416),
   (4611351766892544, 17592186044416),
   (4621247371542528, 17592186044416),
   (4631142976192512, 17592186044416),
   (4641038580842496, 17592186044416),
   (4650934185492480, 17592186044416),
   (4660829790142464, 17592186044416),
   (4670725394792448, 17592186044416),
   (4680620999442432, 17592186044416),
   (4690516604092416, 17592186044416),
   (4700412208742400, 17592186044416),
   (4710307813392384, 17592186044416),
   (4720203418042368, 17592186044416),
   (4730099022692352, 17592186044416),
   (4739994627342336, 17592186044416),
   (4749890231992320, 17592186044416),
   (4759785836642304, 17592186044416),
   (4769681441292288, 17592186044416),
   (4779577045942272, 17592186044416),
   (4789472650592256, 17592186044416),
   (4799368255242240, 17592186044416),
   (4809263859892224, 17592186044416),
   (4819159464542208, 17592186044416),
   (4829055069192192, 17592186044416),
   (4838950673842176, 17592186044416),
   (4848846278492160, 17592186044416),
   (4858741883142144, 17592186044416),
   (4868637487792128, 17592186044416),
   (4878533092442112, 17592186044416),
   (4888428697092096, 17592186044416),
   (4898324301742080, 17592186044416),
   (4908219906392064, 17592186044416),
   (4918115511042048, 17592186044416),
   (4928011115692032, 17592186044416),
   (4937906720342016, 17592186044416),
   (4947802324992000, 17592186044416),
   (4957697929641984, 17592186044416),
   (4967593534291968, 17592186044416),
   (4977489138941952, 17592186044416),
   (4987384743591936, 17592186044416),
   (4997280348241920, 17592186044416),
   (5007175952891904, 17592186044416),
   (5017071557541888, 17592186044416),
   (5026967162191872, 17592186044416),
   (5036862766841856, 17592186044416),
   (5046758371491840, 17592186044416),
   (5056653976141824, 17592186044416)]

/-- Remaining entries of `heightMulTable` (widths 512 to 1024). -/
def heightMulTable1 : List (ℕ × ℕ) :=
  [(5066549580791808, 17592186044416),
   (5076445185441792, 17592186044416),
   (5086340790091776, 17592186044416),
   (5096236394741760, 17592186044416),
   (5106131999391744, 17592186044416),
   (5116027604041728, 17592186044416),
   (5125923208691712, 17592186044416),
   (5135818813341696, 17592186044416),
   (5145714417991680, 17592186044416),
   (5155610022641664, 17592186044416),
   (5165505627291648, 17592186044416),
   (5175401231941632, 17592186044416),
   (5185296836591616, 17592186044416),
   (5195192441241600, 17592186044416),
   (5205088045891584, 17592186044416),
   (5214983650541568, 17592186044416),
   (5224879255191552, 17592186044416),
   (5234774859841536, 17592186044416),
   (5244670464491520, 17592186044416),
   (5254566069141504, 17592186044416),
   (5264461673791488, 17592186044416),
   (5274357278441472, 17592186044416),
   (5284252883091456, 17592186044416),
   (5294148487741440, 17592186044416),
   (5304044092391424, 17592186044416),
   (5313939697041408, 17592186044416),
   (5323835301691392, 17592186044416),
   (5333730906341376, 17592186044416),
   (5343626510991360, 17592186044416),
   (5353522115641344, 17592186044416),
   (5363417720291328, 17592186044416),
   (5373313324941312, 17592186044416),
   (5383208929591296, 17592186044416),
   (5393104534241280, 17592186044416),
   (5403000138891264, 17592186044416),
   (5412895743541248, 17592186044416),
   (5422791348191232, 17592186044416),
   (5432686952841216, 17592186044416),
   (5442582557491200, 17592186044416),
   (5452478162141184, 17592186044416),
   (5462373766791168, 17592186044416),
   (5472269371441152, 17592186044416),
   (5482164976091136, 17592186044416),
   (5492060580741120, 17592186044416),
   (5501956185391104, 17592186044416),
   (5511851790041088, 17592186044416),
   (5521747394691072, 17592186044416),
   (5531642999341056, 17592186044416),
   (5541538603991040, 17592186044416),
   (5551434208641024, 17592186044416),
   (5561329813291008, 17592186044416),
   (5571225417940992, 17592186044416),
   (5581121022590976, 17592186044416),
   (5591016627240960, 17592186044416),
   (5600912231890944, 17592186044416),
   (5610807836540928, 17592186044416),
   (5620703441190912, 17592186044416),
   (5630599045840896, 17592186044416),
   (5640494650490880, 17592186044416),
   (5650390255140864, 17592186044416),
   (5660285859790848, 17592186044416),
   (5670181464440832, 17592186044416),
   (5680077069090816, 17592186044416),
   (5689972673740800, 17592186044416),
   (5699868278390784, 17592186044416),
   (5709763883040768, 17592186044416),
   (5719659487690752, 17592186044416),
   (5729555092340736, 17592186044416),
   (5739450696990720, 17592186044416),
   (5749346301640704, 17592186044416),
   (5759241906290688, 17592186044416),
   (5769137510940672, 17592186044416),
   (5779033115590656, 17592186044416),
   (5788928720240640, 17592186044416),
   (5798824324890624, 17592186044416),
   (5808719929540608, 17592186044416),
   (5818615534190592, 17592186044416),
   (5828511138840576, 17592186044416),
   (5838406743490560, 17592186044416),
   (5848302348140544, 17592186044416),
   (5858197952790528, 17592186044416),
   (5868093557440512, 17592186044416),
   (5877989162090496, 17592186044416),
   (5887884766740480, 17592186044416),
   (5897780371390464, 17592186044416),
   (5907675976040448, 17592186044416),
   (5917571580690432, 17592186044416),
   (5927467185340416, 17592186044416),
   (5937362789990400, 17592186044416),
   (5947258394640384, 17592186044416),
   (5957153999290368, 17592186044416),
   (5967049603940352, 17592186044416),
   (5976945208590336, 17592186044416),
   (5986840813240320, 17592186044416),
   (5996736417890304, 17592186044416),
   (6006632022540288, 17592186044416),
   (6016527627190272, 17592186044416),
   (6026423231840256, 17592186044416),
   (6036318836490240, 17592186044416),
   (6046214441140224, 17592186044416),
   (6056110045790208, 17592186044416),
   (6066005650440192, 17592186044416),
   (6075901255090176, 17592186044416),
   (6085796859740160, 17592186044416),
   (6095692464390144, 17592186044416),
   (6105588069040128, 17592186044416),
   (6115483673690112, 17592186044416),
   (6125379278340096, 17592186044416),
   (6135274882990080, 17592186044416),
   (6145170487640064, 17592186044416),
   (6155066092290048, 17592186044416),
   (6164961696940032, 17592186044416),
   (6174857301590016, 17592186044416),
   (6184752906240000, 17592186044416),
   (6194648510889984, 17592186044416),
   (6204544115539968, 17592186044416),
   (6214439720189952, 17592186044416),
   (6224335324839936, 17592186044416),
   (6234230929489920, 17592186044416),
   (6244126534139904, 17592186044416),
   (6254022138789888, 17592186044416),
   (6263917743439872, 17592186044416),
   (6273813348089856, 17592186044416),
   (6283708952739840, 17592186044416),
   (6293604557389824, 17592186044416),
   (6303500162039808, 17592186044416),
   (6313395766689792, 17592186044416),
   (6323291371339776, 17592186044416),
   (6333186975989760, 17592186044416),
   (6343082580639744, 17592186044416),
   (6352978185289728, 17592186044416),
   (6362873789939712, 17592186044416),
   (6372769394589696, 17592186044416),
   (6382664999239680, 17592186044416),
   (6392560603889664, 17592186044416),
   (6402456208539648, 17592186044416),
   (6412351813189632, 17592186044416),
   (6422247417839616, 17592186044416),
   (6432143022489600, 17592186044416),
   (6442038627139584, 17592186044416),
   (6451934231789568, 17592186044416),
   (6461829836439552, 17592186044416),
   (6471725441089536, 17592186044416),
   (6481621045739520, 17592186044416),
   (6491516650389504, 17592186044416),
   (6501412255039488, 17592186044416),
   (6511307859689472, 17592186044416),
   (6521203464339456, 17592186044416),
   (6531099068989440, 17592186044416),
   (6540994673639424, 17592186044416),
   (6550890278289408, 17592186044416),
   (6560785882939392, 17592186044416),
   (6570681487589376, 17592186044416),
   (6580577092239360, 17592186044416),
   (6590472696889344, 17592186044416),
   (6600368301539328, 17592186044416),
   (6610263906189312, 17592186044416),
   (6620159510839296, 17592186044416),
   (6630055115489280, 17592186044416),
   (6639950720139264, 17592186044416),
   (6649846324789248, 17592186044416),
   (6659741929439232, 17592186044416),
   (6669637534089216, 17592186044416),
   (6679533138739200, 17592186044416),
   (6689428743389184, 17592186044416),
   (6699324348039168, 17592186044416),
   (6709219952689152, 17592186044416),
   (6719115557339136, 17592186044416),
   (6729011161989120, 17592186044416),
   (6738906766639104, 17592186044416),
   (6748802371289088, 17592186044416),
   (6758697975939072, 17592186044416),
   (6768593580589056, 17592186044416),
   (6778489185239040, 17592186044416),
   (6788384789889024, 17592186044416),
   (6798280394539008, 17592186044416),
   (6808175999188992, 17592186044416),
   (6818071603838976, 17592186044416),
   (6827967208488960, 17592186044416),
   (6837862813138944, 17592186044416),
   (6847758417788928, 17592186044416),
   (6857654022438912, 17592186044416),
   (6867549627088896, 17592186044416),
   (6877445231738880, 17592186044416),
   (6887340836388864, 17592186044416),
   (6897236441038848, 17592186044416),
   (6907132045688832, 17592186044416),
   (6917027650338816, 17592186044416),
   (6926923254988800, 17592186044416),
   (6936818859638784, 17592186044416),
   (6946714464288768, 17592186044416),
   (6956610068938752, 17592186044416),
   (6966505673588736, 17592186044416),
   (6976401278238720, 17592186044416),
   (6986296882888704, 17592186044416),
   (6996192487538688, 17592186044416),
   (7006088092188672, 17592186044416),
   (7015983696838656, 17592186044416),
   (7025879301488640, 17592186044416),
   (7035774906138624, 17592186044416),
   (7045670510788608, 17592186044416),
   (7055566115438592, 17592186044416),
   (7065461720088576, 17592186044416),
   (7075357324738560, 17592186044416),
   (7085252929388544, 17592186044416),
   (7095148534038528, 17592186044416),
   (7105044138688512, 17592186044416),
   (7114939743338496, 17592186044416),
   (7124835347988480, 17592186044416),
   (7134730952638464, 17592186044416),
   (7144626557288448, 17592186044416),
   (7154522161938432, 17592186044416),
   (7164417766588416, 17592186044416),
   (7174313371238400, 17592186044416),
   (7184208975888384, 17592186044416),
   (7194104580538368, 17592186044416),
   (7204000185188352, 17592186044416),
   (7213895789838336, 17592186044416),
   (7223791394488320, 17592186044416),
   (7233686999138304, 17592186044416),
   (7243582603788288, 17592186044416),
   (7253478208438272, 17592186044416),
   (7263373813088256, 17592186044416),
   (7273269417738240, 17592186044416),
   (7283165022388224, 17592186044416),
   (7293060627038208, 17592186044416),
   (7302956231688192, 17592186044416),
   (7312851836338176, 17592186044416),
   (7322747440988160, 17592186044416),
   (7332643045638144, 17592186044416),
   (7342538650288128, 17592186044416),
   (7352434254938112, 17592186044416),
   (7362329859588096, 17592186044416),
   (7372225464238080, 17592186044416),
   (7382121068888064, 17592186044416),
   (7392016673538048, 17592186044416),
   (7401912278188032, 17592186044416),
   (7411807882838016, 17592186044416),
   (7421703487488000, 17592186044416),
   (7431599092137984, 17592186044416),
   (7441494696787968, 17592186044416),
   (7451390301437952, 17592186044416),
   (7461285906087936, 17592186044416),
   (7471181510737920, 17592186044416),
   (7481077115387904, 17592186044416),
   (7490972720037888, 17592186044416),
   (7500868324687872, 17592186044416),
   (7510763929337856, 17592186044416),
   (7520659533987840, 17592186044416),
   (7530555138637824, 17592186044416),
   (7540450743287808, 17592186044416),
   (7550346347937792, 17592186044416),
   (7560241952587776, 17592186044416),
   (7570137557237760, 17592186044416),
   (7580033161887744, 17592186044416),
   (7589928766537728, 17592186044416),
   (7599824371187712, 17592186044416),
   (7609719975837696, 17592186044416),
   (7619615580487680, 17592186044416),
   (7629511185137664, 17592186044416),
   (7639406789787648, 17592186044416),
   (7649302394437632, 17592186044416),
   (7659197999087616, 17592186044416),
   (7669093603737600, 17592186044416),
   (7678989208387584, 17592186044416),
   (7688884813037568, 17592186044416),
   (7698780417687552, 17592186044416),
   (7708676022337536, 17592186044416),
   (7718571626987520, 17592186044416),
   (7728467231637504, 17592186044416),
   (7738362836287488, 17592186044416),
   (7748258440937472, 17592186044416),
   (7758154045587456, 17592186044416),
   (7768049650237440, 17592186044416),
   (7777945254887424, 17592186044416),
   (7787840859537408, 17592186044416),
   (7797736464187392, 17592186044416),
   (7807632068837376, 17592186044416),
   (7817527673487360, 17592186044416),
   (7827423278137344, 17592186044416),
   (7837318882787328, 17592186044416),
   (7847214487437312, 17592186044416),
   (7857110092087296, 17592186044416),
   (7867005696737280, 17592186044416),
   (7876901301387264, 17592186044416),
   (7886796906037248, 17592186044416),
   (7896692510687232, 17592186044416),
   (7906588115337216, 17592186044416),
   (7916483719987200, 17592186044416),
   (7926379324637184, 17592186044416),
   (7936274929287168, 17592186044416),
   (7946170533937152, 17592186044416),
   (7956066138587136, 17592186044416),
   (7965961743237120, 17592186044416),
   (7975857347887104, 17592186044416),
   (7985752952537088, 17592186044416),
   (7995648557187072, 17592186044416),
   (8005544161837056, 17592186044416),
   (8015439766487040, 17592186044416),
   (8025335371137024, 17592186044416),
   (8035230975787008, 17592186044416),
   (8045126580436992, 17592186044416),
   (8055022185086976, 17592186044416),
   (8064917789736960, 17592186044416),
   (8074813394386944, 17592186044416),
   (8084708999036928, 17592186044416),
   (8094604603686912, 17592186044416),
   (8104500208336896, 17592186044416),
   (8114395812986880, 17592186044416),
   (8124291417636864, 17592186044416),
   (8134187022286848, 17592186044416),
   (8144082626936832, 17592186044416),
   (8153978231586816, 17592186044416),
   (8163873836236800, 17592186044416),
   (8173769440886784, 17592186044416),
   (8183665045536768, 17592186044416),
   (8193560650186752, 17592186044416),
   (8203456254836736, 17592186044416),
   (8213351859486720, 17592186044416),
   (8223247464136704, 17592186044416),
   (8233143068786688, 17592186044416),
   (8243038673436672, 17592186044416),
   (8252934278086656, 17592186044416),
   (8262829882736640, 17592186044416),
   (8272725487386624, 17592186044416),
   (8282621092036608, 17592186044416),
   (8292516696686592, 17592186044416),
   (8302412301336576, 17592186044416),
   (8312307905986560, 17592186044416),
   (8322203510636544, 17592186044416),
   (8332099115286528, 17592186044416),
   (8341994719936512, 17592186044416),
   (8351890324586496, 17592186044416),
   (8361785929236480, 17592186044416),
   (8371681533886464, 17592186044416),
   (8381577138536448, 17592186044416),
   (8391472743186432, 17592186044416),
   (8401368347836416, 17592186044416),
   (8411263952486400, 17592186044416),
   (8421159557136384, 17592186044416),
   (8431055161786368, 17592186044416),
   (8440950766436352, 17592186044416),
   (8450846371086336, 17592186044416),
   (8460741975736320, 17592186044416),
   (8470637580386304, 17592186044416),
   (8480533185036288, 17592186044416),
   (8490428789686272, 17592186044416),
   (8500324394336256, 17592186044416),
   (8510219998986240, 17592186044416),
   (8520115603636224, 17592186044416),
   (8530011208286208, 17592186044416),
   (8539906812936192, 17592186044416),
   (8549802417586176, 17592186044416),
   (8559698022236160, 17592186044416),
   (8569593626886144, 17592186044416),
   (8579489231536128, 17592186044416),
   (8589384836186112, 17592186044416),
   (8599280440836096, 17592186044416),
   (8609176045486080, 17592186044416),
   (8619071650136064, 17592186044416),
   (8628967254786048, 17592186044416),
   (8638862859436032, 17592186044416),
   (8648758464086016, 17592186044416),
   (8658654068736000, 17592186044416),
   (8668549673385984, 17592186044416),
   (8678445278035968, 17592186044416),
   (8688340882685952, 17592186044416),
   (8698236487335936, 17592186044416),
   (8708132091985920, 17592186044416),
   (8718027696635904, 17592186044416),
   (8727923301285888, 17592186044416),
   (8737818905935872, 17592186044416),
   (8747714510585856, 17592186044416),
   (8757610115235840, 17592186044416),
   (8767505719885824, 17592186044416),
   (8777401324535808, 17592186044416),
   (8787296929185792, 17592186044416),
   (8797192533835776, 17592186044416),
   (8807088138485760, 17592186044416),
   (8816983743135744, 17592186044416),
   (8826879347785728, 17592186044416),
   (8836774952435712, 17592186044416),
   (8846670557085696, 17592186044416),
   (8856566161735680, 17592186044416),
   (8866461766385664, 17592186044416),
   (8876357371035648, 17592186044416),
   (8886252975685632, 17592186044416),
   (8896148580335616, 17592186044416),
   (8906044184985600, 17592186044416),
   (8915939789635584, 17592186044416),
   (8925835394285568, 17592186044416),
   (8935730998935552, 17592186044416),
   (8945626603585536, 17592186044416),
   (8955522208235520, 17592186044416),
   (8965417812885504, 17592186044416),
   (8975313417535488, 17592186044416),
   (8985209022185472, 17592186044416),
   (8995104626835456, 17592186044416),
   (9005000231485440, 17592186044416),
   (4507447918067712, 8796093022208),
   (4512395720392704, 8796093022208),
   (4517343522717696, 8796093022208),
   (4522291325042688, 8796093022208),
   (4527239127367680, 8796093022208),
   (4532186929692672, 8796093022208),
   (4537134732017664, 8796093022208),
   (4542082534342656, 8796093022208),
   (4547030336667648, 8796093022208),
   (4551978138992640, 8796093022208),
   (4556925941317632, 8796093022208),
   (4561873743642624, 8796093022208),
   (4566821545967616, 8796093022208),
   (4571769348292608, 8796093022208),
   (4576717150617600, 8796093022208),
   (4581664952942592, 8796093022208),
   (4586612755267584, 8796093022208),
   (4591560557592576, 8796093022208),
   (4596508359917568, 8796093022208),
   (4601456162242560, 8796093022208),
   (4606403964567552, 8796093022208),
   (4611351766892544, 8796093022208),
   (4616299569217536, 8796093022208),
   (4621247371542528, 8796093022208),
   (4626195173867520, 8796093022208),
   (4631142976192512, 8796093022208),
   (4636090778517504, 8796093022208),
   (4641038580842496, 8796093022208),
   (4645986383167488, 8796093022208),
   (4650934185492480, 8796093022208),
   (4655881987817472, 8796093022208),
   (4660829790142464, 8796093022208),
   (4665777592467456, 8796093022208),
   (4670725394792448, 8796093022208),
   (4675673197117440, 8796093022208),
   (4680620999442432, 8796093022208),
   (4685568801767424, 8796093022208),
   (4690516604092416, 8796093022208),
   (4695464406417408, 8796093022208),
   (4700412208742400, 8796093022208),
   (4705360011067392, 8796093022208),
   (4710307813392384, 8796093022208),
   (4715255615717376, 8796093022208),
   (4720203418042368, 8796093022208),
   (4725151220367360, 8796093022208),
   (4730099022692352, 8796093022208),
   (4735046825017344, 8796093022208),
   (4739994627342336, 8796093022208),
   (4744942429667328, 8796093022208),
   (4749890231992320, 8796093022208),
   (4754838034317312, 8796093022208),
   (4759785836642304, 8796093022208),
   (4764733638967296, 8796093022208),
   (4769681441292288, 8796093022208),
   (4774629243617280, 8796093022208),
   (4779577045942272, 8796093022208),
   (4784524848267264, 8796093022208),
   (4789472650592256, 8796093022208),
   (4794420452917248, 8796093022208),
   (4799368255242240, 8796093022208),
   (4804316057567232, 8796093022208),
   (4809263859892224, 8796093022208),
   (4814211662217216, 8796093022208),
   (4819159464542208, 8796093022208),
   (4824107266867200, 8796093022208),
   (4829055069192192, 8796093022208),
   (4834002871517184, 8796093022208),
   (4838950673842176, 8796093022208),
   (4843898476167168, 8796093022208),
   (4848846278492160, 8796093022208),
   (4853794080817152, 8796093022208),
   (4858741883142144, 8796093022208),
   (4863689685467136, 8796093022208),
   (4868637487792128, 8796093022208),
   (4873585290117120, 8796093022208),
   (4878533092442112, 8796093022208),
   (4883480894767104, 8796093022208),
   (4888428697092096, 8796093022208),
   (4893376499417088, 8796093022208),
   (4898324301742080, 8796093022208),
   (4903272104067072, 8796093022208),
   (4908219906392064, 8796093022208),
   (4913167708717056, 8796093022208),
   (4918115511042048, 8796093022208),
   (4923063313367040, 8796093022208),
   (4928011115692032, 8796093022208),
   (4932958918017024, 8796093022208),
   (4937906720342016, 8796093022208),
   (4942854522667008, 8796093022208),
   (4947802324992000, 8796093022208),
   (4952750127316992, 8796093022208),
   (4957697929641984, 8796093022208),
   (4962645731966976, 8796093022208),
   (4967593534291968, 8796093022208),
   (4972541336616960, 8796093022208),
   (4977489138941952, 8796093022208),
   (4982436941266944, 8796093022208),
   (4987384743591936, 8796093022208),
   (4992332545916928, 8796093022208),
   (4997280348241920, 8796093022208),
   (5002228150566912, 8796093022208),
   (5007175952891904, 8796093022208),
   (5012123755216896, 8796093022208),
   (5017071557541888, 8796093022208),
   (5022019359866880, 8796093022208),
   (5026967162191872, 8796093022208),
   (5031914964516864, 8796093022208),
   (5036862766841856, 8796093022208),
   (5041810569166848, 8796093022208),
   (5046758371491840, 8796093022208),
   (5051706173816832, 8796093022208),
   (5056653976141824, 8796093022208),
   (5061601778466816, 8796093022208),
   (5066549580791808, 8796093022208)]

/-- Lookup table: the double product `width * (9/16)` for every width `w < 1025`, as exact fractions (stage 1 of the height pipeline). -/
def heightMulTable : List (ℕ × ℕ) := heightMulTable0 ++ heightMulTable1

/-- JavaScript strings are modelled as lists of characters (every character
appearing in the program lies in the Basic Multilingual Plane, so JavaScript
string length and per-index access agree with the list model). -/
abbrev JStr := List Char

/-- A 24-bit foreground colour escape for one pixel (line 156):
the text `ESC[38;2;` followed by the decimal values of r, g, b. -/
def colorEscape (r g b : ℕ) : JStr :=
  "\x1b[38;2;".data ++ (toString r).data ++ ";".data ++ (toString g).data
    ++ ";".data ++ (toString b).data ++ "m".data

/-- Output contributed by the pixel at row `y`, column `x` of a frame
(lines 147-156): reads the three colour bytes at offset `(y*width+x)*3`,
selects the glyph by the double-precision brightness index, and emits the
colour escape followed by that glyph.  Frames carry exactly
`width*height*3` bytes, so in every reachable use the reads and the glyph
access are in bounds and the defaults of `getD` are never consulted. -/
def renderCell (chars : JStr) (frame : List ℕ) (width y x : ℕ) : JStr :=
  let off := (y * width + x) * 3
  let r := frame.getD off 0
  let g := frame.getD (off + 1) 0
  let b := frame.getD (off + 2) 0
  colorEscape r g b ++ [chars.getD (idxOfSum chars.length (r + g + b)) ' ']

/-- Per-session render configuration assembled at lines 86-132. -/
structure Config where
  width : ℕ
  height : ℕ
  frameSize : ℕ
  chars : JStr
  stdinIsTTY : Bool
deriving Repr, DecidableEq

/-- Builds the configuration the way `playVideoAscii` does: the height is
derived from the width (line 89), the frame size is `width*height*3`
(line 122) and the ramp comes from the charset setting (lines 131-132). -/
def mkConfig (width : ℕ) (charsetName : String) (tty : Bool) : Config :=
  { width := width
    height := jsHeight width
    frameSize := frameSizeOf width (jsHeight width)
    chars := (charsFor charsetName).data
    stdinIsTTY := tty }

/-- The full text blob written for one frame (lines 142-162): the cursor-home
escape, then for each row the per-pixel colour escapes and glyphs followed by
a newline, then the colour-reset escape, accumulated exactly as the source's
string builder does. -/
def renderBlobChars (cfg : Config) (frame : List ℕ) : JStr :=
  ((List.range cfg.height).foldl
    (fun acc y =>
      ((List.range cfg.width).foldl
        (fun acc2 x => acc2 ++ renderCell cfg.chars frame cfg.width y x) acc)
        ++ "\n".data)
    "\x1b[H".data) ++ "\x1b[0m".data

/-- Observable side effects of the playback session, in the order they are
performed. -/
inductive Effect where
  | clearScreen
  | hideCursor
  | showCursor
  | renderBlob (text : JStr)
  | killFfmpeg
  | killAudio
  | resolve
deriving Repr, DecidableEq

/-- State of one `playVideoAscii` session: the assembler buffer, the frame
queue, the renderer and teardown flags, the subprocess kill state, the
pending scheduler callbacks, and the log of performed side effects. -/
structure Session where
  buffer : List ℕ
  frameQueue : List (List ℕ)
  isProcessing : Bool
  firstFrame : Bool
  frameCount : ℕ
  cleanedUp : Bool
  ffmpegKilled : Bool
  audioKilled : Bool
  listenerAttached : Bool
  rawMode : Bool
  pendingImmediate : ℕ
  pendingResolveTimeout : Bool
  resolved : Bool
  effects : List Effect
deriving Repr, DecidableEq

/-- Session state right after the subprocesses are spawned and, when stdin is
a TTY, raw mode is enabled and the key listener attached (lines 122-129,
232-237). -/
def initSession (cfg : Config) : Session :=
  { buffer := []
    frameQueue := []
    isProcessing := false
    firstFrame := true
    frameCount := 0
    cleanedUp := false
    ffmpegKilled := false
    audioKilled := false
    listenerAttached := cfg.stdinIsTTY
    rawMode := cfg.stdinIsTTY
    pendingImmediate := 0
    pendingResolveTimeout := false
    resolved := false
    effects := [] }

/-- The renderer (lines 135-164): on the first frame of the session it first
clears the screen and hides the cursor, then it writes the frame's text blob
and bumps the frame counter. -/
def renderFrame (cfg : Config) (s : Session) (frame : List ℕ) : Session :=
  let s1 :=
    if s.firstFrame then
      { s with effects := s.effects ++ [.clearScreen, .hideCursor], firstFrame := false }
    else s
  { s1 with
    effects := s1.effects ++ [.renderBlob (renderBlobChars cfg frame)]
    frameCount := s1.frameCount + 1 }

/-- One step of the queue consumer (lines 167-180): unless a render is in
flight or the queue is empty, dequeue the oldest frame, render it, and if
frames remain schedule another step with `setImmediate`. -/
def processNextFrame (cfg : Config) (s : Session) : Session :=
  if s.isProcessing ∨ s.frameQueue.isEmpty then s
  else
    match s.frameQueue with
    | [] => s
    | f :: rest =>
        let s1 := { s with isProcessing := true, frameQueue := rest }
        let s2 := renderFrame cfg s1 f
        let s3 := { s2 with isProcessing := false }
        if 0 < s3.frameQueue.length then
          { s3 with pendingImmediate := s3.pendingImmediate + 1 }
        else s3

/-- Structurally recursive worker for `drainFrames`.  The fuel argument only
bounds the number of loop iterations; `drainFrames` passes the buffer length,
which suffices because each iteration removes at least one byte. -/
def drainFramesAux (frameSize : ℕ) : ℕ → List ℕ → List (List ℕ) × List ℕ
  | 0, buf => ([], buf)
  | fuel + 1, buf =>
      if 0 < frameSize ∧ frameSize ≤ buf.length then
        let res := drainFramesAux frameSize fuel (buf.drop frameSize)
        (buf.take frameSize :: res.1, res.2)
      else ([], buf)

/-- Extraction of whole frames from the accumulation buffer: the
`while (buffer.length >= frameSize)` loop of lines 185-196, producing the
extracted frames in order together with the retained remainder.  For
`frameSize = 0` the source loop would not terminate; the model returns no
frames, and every property proved below assumes a positive frame size. -/
def drainFrames (frameSize : ℕ) (buf : List ℕ) : List (List ℕ) × List ℕ :=
  drainFramesAux frameSize buf.length buf

/-- Bounded enqueue (lines 190-195): push the frame, then if the queue now
holds more than 30 frames drop the oldest. -/
def enqueueFrame (q : List (List ℕ)) (f : List ℕ)  : List (List ℕ) :=
  let q1 := q ++ [f]
  if 30 < q1.length then q1.tail else q1

/-- Handler for a chunk of decoder output (lines 182-202): append the chunk
to the buffer, slice out and enqueue every whole frame (with bounded
eviction), and start the queue consumer when no render is in flight. -/
def onData (cfg : Config) (s : Session) (chunk : List ℕ) : Session :=
  let res := drainFrames cfg.frameSize (s.buffer ++ chunk)
  let s1 := { s with buffer := res.2, frameQueue := res.1.foldl enqueueFrame s.frameQueue }
  if s1.isProcessing then s1 else processNextFrame cfg s1

/-- Teardown (lines 204-220): a no-op once the one-shot flag is set;
otherwise it restores the input mode when stdin is a TTY, detaches the key
listener, kills each subprocess that is not already killed, shows the cursor
and clears the screen. -/
def cleanup (cfg : Config) (s : Session) : Session :=
  if s.cleanedUp then s
  else
    { s with
      cleanedUp := true
      rawMode := if cfg.stdinIsTTY then false else s.rawMode
      listenerAttached := false
      ffmpegKilled := true
      audioKilled := true
      effects := s.effects
        ++ (if s.ffmpegKilled then [] else [.killFfmpeg])
        ++ (if s.audioKilled then [] else [.killAudio])
        ++ [.showCursor, .clearScreen] }

/-- Resolution of the playback promise: the first call resolves, later calls
are no-ops. -/
def resolveSession (s : Session) : Session :=
  if s.resolved then s else { s with resolved := true, effects := s.effects ++ [.resolve] }

/-- Lower-cases one ASCII byte, modelling `toLowerCase` on the decoded key. -/
def asciiLower (b : ℕ) : ℕ := if 65 ≤ b ∧ b ≤ 90 then b + 32 else b

/-- The quit test of line 225: the first byte is the interrupt byte 0x03, or
the key decodes to the single character q case-insensitively.  Key chunks
are modelled as ASCII byte lists, which covers every keystroke the claims
mention. -/
def isQuitKey (key : List ℕ) : Bool :=
  key.headD 0 == 3 || (key.all (· < 128) && key.map asciiLower == [113])

/-- The key listener (lines 223-230): on a quit key it tears the session
down and schedules the promise resolution after the 100 ms grace delay;
every other key is ignored. -/
def onKeyPress (cfg : Config) (s : Session) (key : List ℕ) : Session :=
  if isQuitKey key then
    { cleanup cfg s with pendingResolveTimeout := true }
  else s

/-- Events delivered to the session by the host event loop: decoder output,
a keystroke (delivered only while the listener is attached), a previously
scheduled `setImmediate` render step, the grace-delay timer, and the decoder
subprocess failing to launch or exiting (lines 239-253). -/
inductive Event where
  | data (chunk : List ℕ)
  | key (k : List ℕ)
  | immediate
  | resolveTimeout
  | ffmpegError
  | ffmpegClose
deriving Repr

/-- One event-loop step of the session. -/
def step (cfg : Config) (s : Session) : Event → Session
  | .data chunk => onData cfg s chunk
  | .key k => if s.listenerAttached then onKeyPress cfg s k else s
  | .immediate =>
      if 0 < s.pendingImmediate then
        processNextFrame cfg { s with pendingImmediate := s.pendingImmediate - 1 }
      else s
  | .resolveTimeout =>
      if s.pendingResolveTimeout then
        resolveSession { s with pendingResolveTimeout := false }
      else s
  | .ffmpegError => resolveSession (cleanup cfg s)
  | .ffmpegClose => resolveSession (cleanup cfg s)

/-- Runs the session over a sequence of events. -/
def run (cfg : Config) (s : Session) (events : List Event) : Session :=
  events.foldl (step cfg) s

/-- One data-handler step of the assembler viewed as a pure function: the
retained remainder is extended by the chunk and all whole frames are sliced
off, exactly as `onData` does before enqueueing. -/
def assembleStep (fs : ℕ) (acc : List (List ℕ) × List ℕ) (chunk : List ℕ) :
    List (List ℕ) × List ℕ :=
  let res := drainFrames fs (acc.2 ++ chunk)
  (acc.1 ++ res.1, res.2)

/-- The Frame Assembler over a whole sequence of chunks: all frames emitted
(in order) and the final unconsumed remainder, starting from an empty
accumulation buffer. -/
def assemble (fs : ℕ) (chunks : List (List ℕ)) : List (List ℕ) × List ℕ :=
  chunks.foldl (assembleStep fs) ([], [])

/-- Recognizer for the render effect, used to count rendered frames. -/
def isRenderBlob : Effect → Bool
  | .renderBlob _ => true
  | _ => false

/-- Recognizer for the decoder-subprocess kill effect. -/
def isKillF : Effect → Bool
  | .killFfmpeg => true
  | _ => false

/-- Recognizer for the audio-subprocess kill effect. -/
def isKillA : Effect → Bool
  | .killAudio => true
  | _ => false

/-- The subprocess-kill invariant tying each kill flag to the number of kill
effects that have been performed. -/
def killInv (s : Session) : Prop :=
  s.effects.countP isKillF = (if s.ffmpegKilled then 1 else 0)
  ∧ s.effects.countP isKillA = (if s.audioKilled then 1 else 0)

/-- Modelled from the spec: the frame blob as the spec describes it — the
cursor-home escape, then one newline-terminated row per scanline in which
every pixel contributes its colour escape followed by its glyph, then the
colour-reset escape.  Stated with `map`/`flatten` to compare against the
accumulating string builder `renderBlobChars` of the source. -/
def specBlobChars (cfg : Config) (frame : List ℕ) : JStr :=
  "\x1b[H".data
    ++ ((List.range cfg.height).map (fun y =>
          ((List.range cfg.width).map
            (fun x => renderCell cfg.chars frame cfg.width y x)).flatten
            ++ "\n".data)).flatten
    ++ "\x1b[0m".data

/-! ### Helper lemmas about the Frame Assembler -/

theorem drainFramesAux_zero (fs : ℕ) (buf : List ℕ) : drainFramesAux fs 0 buf = ([], buf) := rfl

theorem drainFramesAux_succ (fs fuel : ℕ) (buf : List ℕ) :
    drainFramesAux fs (fuel + 1) buf =
      if 0 < fs ∧ fs ≤ buf.length then
        (buf.take fs :: (drainFramesAux fs fuel (buf.drop fs)).1,
          (drainFramesAux fs fuel (buf.drop fs)).2)
      else ([], buf) := rfl

theorem drainFramesAux_irrel (fs : ℕ) :
    ∀ (f1 : ℕ) (buf : List ℕ), buf.length ≤ f1 → ∀ f2, buf.length ≤ f2 →
      drainFramesAux fs f1 buf = drainFramesAux fs f2 buf := by
  intro f1
  induction f1 with
  | zero =>
      intro buf h1 f2 h2
      cases f2 with
      | zero => rfl
      | succ f2 =>
          rw [drainFramesAux_zero, drainFramesAux_succ, if_neg (by omega)]
  | succ f1 ih =>
      intro buf h1 f2 h2
      cases f2 with
      | zero =>
          rw [drainFramesAux_zero, drainFramesAux_succ, if_neg (by omega)]
      | succ f2 =>
          rw [drainFramesAux_succ, drainFramesAux_succ]
          by_cases hc : 0 < fs ∧ fs ≤ buf.length
          · rw [if_pos hc, if_pos hc,
              ih (buf.drop fs) (by simp only [List.length_drop]; omega) f2
                (by simp only [List.length_drop]; omega)]
          · rw [if_neg hc, if_neg hc]

theorem drainFrames_pos (fs : ℕ) (buf : List ℕ) (h1 : 0 < fs) (h2 : fs ≤ buf.length) :
    drainFrames fs buf =
      (buf.take fs :: (drainFrames fs (buf.drop fs)).1, (drainFrames fs (buf.drop fs)).2) := by
  unfold drainFrames
  obtain ⟨n, hn⟩ : ∃ n, buf.length = n + 1 := ⟨buf.length - 1, by omega⟩
  rw [hn, drainFramesAux_succ, if_pos ⟨h1, h2⟩,
    drainFramesAux_irrel fs n (buf.drop fs)
      (by simp only [List.length_drop]; omega) (buf.drop fs).length le_rfl]

theorem drainFrames_neg (fs : ℕ) (buf : List ℕ) (h : ¬(0 < fs ∧ fs ≤ buf.length)) :
    drainFrames fs buf = ([], buf) := by
  unfold drainFrames
  cases hl : buf.length with
  | zero => rw [drainFramesAux_zero]
  | succ n => rw [drainFramesAux_succ, if_neg h]

theorem drainFrames_join_aux (fs : ℕ) :
    ∀ (n : ℕ) (buf : List ℕ), buf.length ≤ n →
      (drainFrames fs buf).1.flatten ++ (drainFrames fs buf).2 = buf := by
  intro n
  induction n with
  | zero =>
      intro buf hb
      rw [drainFrames_neg fs buf (by omega)]
      simp
  | succ n ih =>
      intro buf hb
      by_cases h : 0 < fs ∧ fs ≤ buf.length
      · rw [drainFrames_pos fs buf h.1 h.2]
        have hrec := ih (buf.drop fs) (by simp only [List.length_drop]; omega)
        simp only [List.flatten_cons, List.append_assoc, hrec]
        exact List.take_append_drop fs buf
      · rw [drainFrames_neg fs buf h]
        simp

theorem drainFrames_join (fs : ℕ) (buf : List ℕ) :
    (drainFrames fs buf).1.flatten ++ (drainFrames fs buf).2 = buf :=
  drainFrames_join_aux fs buf.length buf le_rfl

theorem drainFrames_frame_len_aux (fs : ℕ) :
    ∀ (n : ℕ) (buf : List ℕ), buf.length ≤ n →
      ∀ f ∈ (drainFrames fs buf).1, f.length = fs := by
  intro n
  induction n with
  | zero =>
      intro buf hb
      rw [drainFrames_neg fs buf (by omega)]
      simp
  | succ n ih =>
      intro buf hb
      by_cases h : 0 < fs ∧ fs ≤ buf.length
      · rw [drainFrames_pos fs buf h.1 h.2]
        intro f hf
        rcases List.mem_cons.mp hf with hf | hf
        · subst hf
          simp only [List.length_take]
          omega
        · exact ih (buf.drop fs) (by simp only [List.length_drop]; omega) f hf
      · rw [drainFrames_neg fs buf h]
        simp

theorem drainFrames_frame_len (fs : ℕ) (buf : List ℕ) :
    ∀ f ∈ (drainFrames fs buf).1, f.length = fs :=
  drainFrames_frame_len_aux fs buf.length buf le_rfl

theorem drainFrames_rem_lt_aux (fs : ℕ) (hfs : 0 < fs) :
    ∀ (n : ℕ) (buf : List ℕ), buf.length ≤ n → (drainFrames fs buf).2.length < fs := by
  intro n
  induction n with
  | zero =>
      intro buf hb
      rw [drainFrames_neg fs buf (by omega)]
      show buf.length < fs
      omega
  | succ n ih =>
      intro buf hb
      by_cases h : 0 < fs ∧ fs ≤ buf.length
      · rw [drainFrames_pos fs buf h.1 h.2]
        exact ih (buf.drop fs) (by simp only [List.length_drop]; omega)
      · rw [drainFrames_neg fs buf h]
        show buf.length < fs
        omega

theorem drainFrames_rem_lt (fs : ℕ) (buf : List ℕ) (hfs : 0 < fs) :
    (drainFrames fs buf).2.length < fs :=
  drainFrames_rem_lt_aux fs hfs buf.length buf le_rfl

theorem assemble_foldl_join (fs : ℕ) (chunks : List (List ℕ)) :
    ∀ acc : List (List ℕ) × List ℕ,
      (chunks.foldl (assembleStep fs) acc).1.flatten ++ (chunks.foldl (assembleStep fs) acc).2
        = acc.1.flatten ++ (acc.2 ++ chunks.flatten) := by
  induction chunks with
  | nil => intro acc; simp
  | cons c cs ih =>
      intro acc
      rw [List.foldl_cons, ih]
      have hd := drainFrames_join fs (acc.2 ++ c)
      simp only [assembleStep, List.flatten_append, List.flatten_cons, List.append_assoc]
      congr 1
      rw [← List.append_assoc, hd, List.append_assoc]

theorem assemble_foldl_frame_len (fs : ℕ) (chunks : List (List ℕ)) :
    ∀ acc : List (List ℕ) × List ℕ, (∀ f ∈ acc.1, f.length = fs) →
      ∀ f ∈ (chunks.foldl (assembleStep fs) acc).1, f.length = fs := by
  induction chunks with
  | nil => intro acc hacc; simpa using hacc
  | cons c cs ih =>
      intro acc hacc
      rw [List.foldl_cons]
      refine ih _ ?_
      intro f hf
      rcases List.mem_append.mp hf with hf | hf
      · exact hacc f hf
      · exact drainFrames_frame_len fs (acc.2 ++ c) f hf

theorem assemble_foldl_rem_lt (fs : ℕ) (hfs : 0 < fs) (chunks : List (List ℕ)) :
    ∀ acc : List (List ℕ) × List ℕ, acc.2.length < fs →
      (chunks.foldl (assembleStep fs) acc).2.length < fs := by
  induction chunks with
  | nil => intro acc hacc; simpa using hacc
  | cons c cs ih =>
      intro acc hacc
      rw [List.foldl_cons]
      exact ih _ (drainFrames_rem_lt fs (acc.2 ++ c) hfs)

theorem join_length_uniform (fs : ℕ) (l : List (List ℕ)) (h : ∀ f ∈ l, f.length = fs) :
    l.flatten.length = fs * l.length := by
  induction l with
  | nil => simp
  | cons f tl ih =>
      have hf : f.length = fs := h f (List.mem_cons_self f tl)
      have htl := ih (fun g hg => h g (List.mem_cons_of_mem f hg))
      simp only [List.flatten_cons, List.length_append, List.length_cons, hf, htl]
      ring

theorem frames_slice (fs : ℕ) :
    ∀ (frames : List (List ℕ)) (rem L : List ℕ), frames.flatten ++ rem = L →
      (∀ f ∈ frames, f.length = fs) →
      ∀ i < frames.length, frames.getD i [] = (L.drop (fs * i)).take fs := by
  intro frames
  induction frames with
  | nil => intro rem L _ _ i hi; simp at hi
  | cons f tl ih =>
      intro rem L hL hlen i hi
      have hf : f.length = fs := hlen f (List.mem_cons_self f tl)
      have hL' : L = f ++ (tl.flatten ++ rem) := by
        rw [← hL]; simp [List.append_assoc]
      match i with
      | 0 =>
          simp only [List.getD, Nat.mul_zero, List.drop_zero]
          rw [hL', ← hf]
          simp [List.take_left]
      | Nat.succ j =>
          have hdrop : L.drop (fs * (j + 1)) = (tl.flatten ++ rem).drop (fs * j) := by
            rw [hL']
            rw [show fs * (j + 1) = f.length + fs * j by rw [hf]; ring]
            rw [← List.drop_drop]
            rw [List.drop_left f (tl.flatten ++ rem)]
          rw [hdrop]
          have := ih rem (tl.flatten ++ rem) rfl
            (fun g hg => hlen g (List.mem_cons_of_mem f hg)) j
            (by simpa using Nat.lt_of_succ_lt_succ hi)
          simpa using this

/-! ### Helper lemmas about the session state machine -/

theorem renderFrame_fields (cfg : Config) (s : Session) (f : List ℕ) :
    (renderFrame cfg s f).frameQueue = s.frameQueue
    ∧ (renderFrame cfg s f).isProcessing = s.isProcessing
    ∧ (renderFrame cfg s f).cleanedUp = s.cleanedUp
    ∧ (renderFrame cfg s f).ffmpegKilled = s.ffmpegKilled
    ∧ (renderFrame cfg s f).audioKilled = s.audioKilled
    ∧ (renderFrame cfg s f).pendingImmediate = s.pendingImmediate := by
  unfold renderFrame
  by_cases h : s.firstFrame <;> simp [h]

theorem renderFrame_effects (cfg : Config) (s : Session) (f : List ℕ) :
    (renderFrame cfg s f).effects
      = s.effects ++ (if s.firstFrame then [Effect.clearScreen, Effect.hideCursor] else [])
          ++ [Effect.renderBlob (renderBlobChars cfg f)] := by
  unfold renderFrame
  by_cases h : s.firstFrame <;> simp [h]

theorem processNextFrame_guard (cfg : Config) (s : Session)
    (h : s.isProcessing = true ∨ s.frameQueue = []) :
    processNextFrame cfg s = s := by
  unfold processNextFrame
  rcases h with h | h
  · rw [if_pos (Or.inl (by simp [h]))]
  · rw [if_pos (Or.inr (by simp [h]))]

theorem processNextFrame_cons (cfg : Config) (s : Session) (f : List ℕ) (rest : List (List ℕ))
    (hp : s.isProcessing = false) (hq : s.frameQueue = f :: rest) :
    processNextFrame cfg s =
      (if 0 < (renderFrame cfg { s with isProcessing := true, frameQueue := rest } f).frameQueue.length
       then { renderFrame cfg { s with isProcessing := true, frameQueue := rest } f with
                isProcessing := false,
                pendingImmediate :=
                  (renderFrame cfg { s with isProcessing := true, frameQueue := rest } f).pendingImmediate
                    + 1 }
       else { renderFrame cfg { s with isProcessing := true, frameQueue := rest } f with
                isProcessing := false }) := by
  unfold processNextFrame
  rw [hq]
  simp [hp]

theorem cleanup_frameQueue (cfg : Config) (s : Session) :
    (cleanup cfg s).frameQueue = s.frameQueue := by
  unfold cleanup
  by_cases h : s.cleanedUp <;> simp [h]

theorem cleanup_cleanedUp (cfg : Config) (s : Session) (h : s.cleanedUp = false) :
    (cleanup cfg s).cleanedUp = true := by
  unfold cleanup
  simp [h]

theorem resolveSession_resolved (s : Session) : (resolveSession s).resolved = true := by
  unfold resolveSession
  by_cases h : s.resolved <;> simp [h]

theorem resolveSession_fields (s : Session) :
    (resolveSession s).frameQueue = s.frameQueue
    ∧ (resolveSession s).cleanedUp = s.cleanedUp
    ∧ (resolveSession s).ffmpegKilled = s.ffmpegKilled
    ∧ (resolveSession s).audioKilled = s.audioKilled := by
  unfold resolveSession
  by_cases h : s.resolved <;> simp [h]

theorem killInv_renderFrame (cfg : Config) (s : Session) (f : List ℕ) (h : killInv s) :
    killInv (renderFrame cfg s f) := by
  obtain ⟨h1, h2⟩ := h
  unfold killInv renderFrame
  by_cases hf : s.firstFrame <;>
    simp [hf, List.countP_append, List.countP_cons, isKillF, isKillA, h1, h2]

theorem killInv_processNextFrame (cfg : Config) (s : Session) (h : killInv s) :
    killInv (processNextFrame cfg s) := by
  by_cases hp : s.isProcessing
  · rw [processNextFrame_guard cfg s (Or.inl hp)]; exact h
  · cases hq : s.frameQueue with
    | nil => rw [processNextFrame_guard cfg s (Or.inr hq)]; exact h
    | cons f rest =>
        rw [processNextFrame_cons cfg s f rest (by simpa using hp) hq]
        have hrend := killInv_renderFrame cfg { s with isProcessing := true, frameQueue := rest } f h
        split
        · exact hrend
        · exact hrend

theorem killInv_onData (cfg : Config) (s : Session) (c : List ℕ) (h : killInv s) :
    killInv (onData cfg s c) := by
  unfold onData
  dsimp only
  split
  · exact h
  · exact killInv_processNextFrame cfg _ h

theorem killInv_cleanup (cfg : Config) (s : Session) (h : killInv s) :
    killInv (cleanup cfg s) := by
  obtain ⟨h1, h2⟩ := h
  unfold killInv cleanup
  by_cases hc : s.cleanedUp
  · simp [hc, h1, h2]
  · by_cases hF : s.ffmpegKilled <;> by_cases hA : s.audioKilled <;>
      simp [hc, hF, hA, List.countP_append, List.countP_cons, isKillF, isKillA,
        h1, h2]

theorem killInv_resolveSession (s : Session) (h : killInv s) :
    killInv (resolveSession s) := by
  obtain ⟨h1, h2⟩ := h
  unfold killInv resolveSession
  by_cases hr : s.resolved <;>
    simp [hr, List.countP_append, List.countP_cons, isKillF, isKillA, h1, h2]

theorem killInv_step (cfg : Config) (s : Session) (e : Event) (h : killInv s) :
    killInv (step cfg s e) := by
  cases e with
  | data c => exact killInv_onData cfg s c h
  | key k =>
      show killInv (if s.listenerAttached = true then onKeyPress cfg s k else s)
      split
      · unfold onKeyPress
        split
        · exact killInv_cleanup cfg s h
        · exact h
      · exact h
  | immediate =>
      show killInv (if 0 < s.pendingImmediate then
        processNextFrame cfg { s with pendingImmediate := s.pendingImmediate - 1 } else s)
      split
      · exact killInv_processNextFrame cfg _ h
      · exact h
  | resolveTimeout =>
      show killInv (if s.pendingResolveTimeout = true then
        resolveSession { s with pendingResolveTimeout := false } else s)
      split
      · exact killInv_resolveSession _ h
      · exact h
  | ffmpegError => exact killInv_resolveSession _ (killInv_cleanup cfg s h)
  | ffmpegClose => exact killInv_resolveSession _ (killInv_cleanup cfg s h)

theorem killInv_init (cfg : Config) : killInv (initSession cfg) := by
  simp [killInv, initSession]

theorem killInv_run (cfg : Config) (trace : List Event) :
    ∀ s, killInv s → killInv (run cfg s trace) := by
  induction trace with
  | nil => intro s h; exact h
  | cons e es ih =>
      intro s h
      exact ih _ (killInv_step cfg s e h)

theorem enqueueFrame_len_le (q : List (List ℕ)) (f : List ℕ) (h : q.length ≤ 30) :
    (enqueueFrame q f).length ≤ 30 := by
  unfold enqueueFrame
  dsimp only
  split
  · simp only [List.length_tail, List.length_append, List.length_cons, List.length_nil]
    omega
  · next hgt =>
      simp only [List.length_append, List.length_cons, List.length_nil] at hgt ⊢
      omega

theorem foldl_enqueue_le (frames : List (List ℕ)) :
    ∀ q : List (List ℕ), q.length ≤ 30 → (frames.foldl enqueueFrame q).length ≤ 30 := by
  induction frames with
  | nil => intro q h; simpa using h
  | cons f tl ih =>
      intro q h
      rw [List.foldl_cons]
      exact ih _ (enqueueFrame_len_le q f h)

theorem processNextFrame_queue_len (cfg : Config) (s : Session) :
    (processNextFrame cfg s).frameQueue.length ≤ s.frameQueue.length := by
  by_cases hp : s.isProcessing
  · rw [processNextFrame_guard cfg s (Or.inl hp)]
  · cases hq : s.frameQueue with
    | nil => rw [processNextFrame_guard cfg s (Or.inr hq), hq]
    | cons f rest =>
        rw [processNextFrame_cons cfg s f rest (by simpa using hp) hq]
        have hr := (renderFrame_fields cfg { s with isProcessing := true, frameQueue := rest } f).1
        split <;> simp [hr, hq]

theorem step_queue_len (cfg : Config) (s : Session) (e : Event) (h : s.frameQueue.length ≤ 30) :
    (step cfg s e).frameQueue.length ≤ 30 := by
  cases e with
  | data c =>
      show (onData cfg s c).frameQueue.length ≤ 30
      unfold onData
      dsimp only
      have hq1 : ((drainFrames cfg.frameSize (s.buffer ++ c)).1.foldl
          enqueueFrame s.frameQueue).length ≤ 30 := foldl_enqueue_le _ _ h
      split
      · exact hq1
      · exact le_trans (processNextFrame_queue_len cfg _) hq1
  | key k =>
      show (if s.listenerAttached = true then onKeyPress cfg s k else s).frameQueue.length ≤ 30
      split
      · unfold onKeyPress
        split
        · simpa [cleanup_frameQueue] using h
        · exact h
      · exact h
  | immediate =>
      show (if 0 < s.pendingImmediate then
        processNextFrame cfg { s with pendingImmediate := s.pendingImmediate - 1 }
        else s).frameQueue.length ≤ 30
      split
      · exact le_trans (processNextFrame_queue_len cfg _) (by simpa using h)
      · exact h
  | resolveTimeout =>
      show (if s.pendingResolveTimeout = true then
        resolveSession { s with pendingResolveTimeout := false } else s).frameQueue.length ≤ 30
      split
      · simpa [(resolveSession_fields _).1] using h
      · exact h
  | ffmpegError =>
      show (resolveSession (cleanup cfg s)).frameQueue.length ≤ 30
      rw [(resolveSession_fields _).1, cleanup_frameQueue]
      exact h
  | ffmpegClose =>
      show (resolveSession (cleanup cfg s)).frameQueue.length ≤ 30
      rw [(resolveSession_fields _).1, cleanup_frameQueue]
      exact h

theorem run_queue_len (cfg : Config) (trace : List Event) :
    ∀ s, s.frameQueue.length ≤ 30 → (run cfg s trace).frameQueue.length ≤ 30 := by
  induction trace with
  | nil => intro s h; exact h
  | cons e es ih =>
      intro s h
      exact ih _ (step_queue_len cfg s e h)

/-! ### C2: the Frame Assembler -/

/-- C2.  For every chunk sequence and positive frame size: the emitted
frames, in order, concatenate (with the retained remainder) back to the
concatenation of the chunks; every emitted frame is exactly `frameSize`
bytes; the i-th frame is the byte-identical slice of the concatenation at
offset `frameSize * i`; the number of frames is `total / frameSize`; the
remainder holds `total % frameSize` bytes; and when the total is an exact
multiple of the frame size the remainder is empty. -/
theorem frame_assembler_spec (fs : ℕ) (chunks : List (List ℕ)) (hfs : 0 < fs) :
    (assemble fs chunks).1.flatten ++ (assemble fs chunks).2 = chunks.flatten
    ∧ (∀ f ∈ (assemble fs chunks).1, f.length = fs)
    ∧ (∀ i < (assemble fs chunks).1.length,
        (assemble fs chunks).1.getD i [] = (chunks.flatten.drop (fs * i)).take fs)
    ∧ (assemble fs chunks).1.length = chunks.flatten.length / fs
    ∧ (assemble fs chunks).2.length = chunks.flatten.length % fs
    ∧ (chunks.flatten.length % fs = 0 → (assemble fs chunks).2 = []) := by
  have hjoin : (assemble fs chunks).1.flatten ++ (assemble fs chunks).2 = chunks.flatten := by
    have := assemble_foldl_join fs chunks ([], [])
    simpa [assemble] using this
  have hlen : ∀ f ∈ (assemble fs chunks).1, f.length = fs := by
    have := assemble_foldl_frame_len fs chunks ([], []) (by simp)
    simpa [assemble] using this
  have hrem : (assemble fs chunks).2.length < fs := by
    have := assemble_foldl_rem_lt fs hfs chunks ([], []) (by simpa using hfs)
    simpa [assemble] using this
  have hflat : (assemble fs chunks).1.flatten.length = fs * (assemble fs chunks).1.length :=
    join_length_uniform fs _ hlen
  have htot : fs * (assemble fs chunks).1.length + (assemble fs chunks).2.length
      = chunks.flatten.length := by
    have := congrArg List.length hjoin
    simpa [List.length_append, hflat] using this
  have hT : chunks.flatten.length
      = (assemble fs chunks).2.length + fs * (assemble fs chunks).1.length := by omega
  have hmod : chunks.flatten.length % fs = (assemble fs chunks).2.length := by
    rw [hT, Nat.add_mul_mod_self_left, Nat.mod_eq_of_lt hrem]
  have hdiv : chunks.flatten.length / fs = (assemble fs chunks).1.length := by
    rw [hT, Nat.add_mul_div_left _ _ hfs, Nat.div_eq_of_lt hrem, Nat.zero_add]
  refine ⟨hjoin, hlen, ?_, hdiv.symm, hmod.symm, ?_⟩
  · exact frames_slice fs (assemble fs chunks).1 (assemble fs chunks).2 chunks.flatten hjoin hlen
  · intro h0
    have : (assemble fs chunks).2.length = 0 := by omega
    exact List.eq_nil_of_length_eq_zero this

/-- Witness for C2 at frame size 3 and the chunks [1,2], [3,4,5,6], [7]:
two whole frames are emitted and one byte is retained. -/
theorem frame_assembler_spec_witness :
    (assemble 3 [[1, 2], [3, 4, 5, 6], [7]]).1.flatten
        ++ (assemble 3 [[1, 2], [3, 4, 5, 6], [7]]).2 = [1, 2, 3, 4, 5, 6, 7]
    ∧ (assemble 3 [[1, 2], [3, 4, 5, 6], [7]]).1.length = 2
    ∧ (assemble 3 [[1, 2], [3, 4, 5, 6], [7]]).2.length = 1
    ∧ (assemble 3 [[1, 2], [3, 4, 5, 6], [7]]).1.getD 1 [] = [4, 5, 6] := by
  have h := frame_assembler_spec 3 [[1, 2], [3, 4, 5, 6], [7]] (by decide)
  refine ⟨h.1.trans (by decide), h.2.2.2.1.trans (by decide),
    h.2.2.2.2.1.trans (by decide), (h.2.2.1 1 (by decide)).trans (by decide)⟩

/-! ### C4: the bounded frame queue -/

theorem enqueueFrame_at_capacity (q : List (List ℕ)) (f : List ℕ) (h : q.length = 30) :
    enqueueFrame q f = q.tail ++ [f] := by
  unfold enqueueFrame
  dsimp only
  rw [if_pos (by simp only [List.length_append, List.length_cons, List.length_nil]; omega)]
  cases q with
  | nil => simp at h
  | cons a t => simp

theorem enqueueFrame_below (q : List (List ℕ)) (f : List ℕ) (h : q.length < 30) :
    enqueueFrame q f = q ++ [f] := by
  unfold enqueueFrame
  dsimp only
  rw [if_neg (by simp only [List.length_append, List.length_cons, List.length_nil]; omega)]

/-- C4.  The queue policy: enqueuing into a full queue of 30 keeps the length
at 30 and drops exactly the oldest entry while preserving the order of the
rest; enqueuing below capacity appends; the queue length never exceeds 30 in
any reachable session state; and the consumer dequeues the oldest frame and
renders exactly that frame. -/
theorem frame_queue_policy (q : List (List ℕ)) (f : List ℕ) (hq : q.length = 30) :
    (enqueueFrame q f).length = 30
    ∧ enqueueFrame q f = q.tail ++ [f]
    ∧ (∀ (q2 : List (List ℕ)) (f2 : List ℕ), q2.length ≤ 30 →
        (enqueueFrame q2 f2).length ≤ 30)
    ∧ (∀ (q2 : List (List ℕ)) (f2 : List ℕ), q2.length < 30 →
        enqueueFrame q2 f2 = q2 ++ [f2])
    ∧ (∀ (cfg : Config) (trace : List Event),
        (run cfg (initSession cfg) trace).frameQueue.length ≤ 30)
    ∧ (∀ (cfg : Config) (s : Session) (g : List ℕ) (rest : List (List ℕ)),
        s.isProcessing = false → s.frameQueue = g :: rest →
          (processNextFrame cfg s).frameQueue = rest
          ∧ (processNextFrame cfg s).effects.getLast?
              = some (Effect.renderBlob (renderBlobChars cfg g))) := by
  refine ⟨?_, enqueueFrame_at_capacity q f hq, enqueueFrame_len_le, enqueueFrame_below,
    ?_, ?_⟩
  · rw [enqueueFrame_at_capacity q f hq]
    simp only [List.length_append, List.length_tail, List.length_cons, List.length_nil, hq]
  · intro cfg trace
    exact run_queue_len cfg trace (initSession cfg) (by simp [initSession])
  · intro cfg s g rest hp hqs
    rw [processNextFrame_cons cfg s g rest hp hqs]
    have hfq := (renderFrame_fields cfg { s with isProcessing := true, frameQueue := rest } g).1
    have heff := renderFrame_effects cfg { s with isProcessing := true, frameQueue := rest } g
    split
    · exact ⟨hfq, by rw [heff]; exact List.getLast?_concat _⟩
    · exact ⟨hfq, by rw [heff]; exact List.getLast?_concat _⟩

/-- Witness for C4 at a queue of 30 empty frames. -/
theorem frame_queue_policy_witness :
    (enqueueFrame (List.replicate 30 ([] : List ℕ)) [1]).length = 30
    ∧ enqueueFrame (List.replicate 30 ([] : List ℕ)) [1]
        = (List.replicate 30 ([] : List ℕ)).tail ++ [[1]] := by
  have h := frame_queue_policy (List.replicate 30 ([] : List ℕ)) [1] (by decide)
  exact ⟨h.1, h.2.1⟩

/-! ### C7: idempotent teardown -/

theorem cleanup_noop (cfg : Config) (s : Session) (h : s.cleanedUp = true) :
    cleanup cfg s = s := by
  unfold cleanup
  rw [if_pos h]

theorem cleanup_cleanedUp_true (cfg : Config) (s : Session) :
    (cleanup cfg s).cleanedUp = true := by
  unfold cleanup
  by_cases h : s.cleanedUp
  · rw [if_pos h]; exact h
  · rw [if_neg h]

theorem cleanup_kills (cfg : Config) (s : Session) (h : s.cleanedUp = false) :
    (cleanup cfg s).ffmpegKilled = true ∧ (cleanup cfg s).audioKilled = true := by
  unfold cleanup
  rw [if_neg (by simp [h])]
  exact ⟨rfl, rfl⟩

/-- C7.  Teardown is idempotent: on a session already cleaned up it is a
no-op, a second teardown never changes the state again, each subprocess is
killed at most once along every event trace of a session, and both a decoder
launch error and a decoder exit (any code) leave the session cleaned up with
the playback promise resolved (no exception is modelled because the handlers
throw none). -/
theorem teardown_once_spec (cfg : Config) (s : Session) (hs : s.cleanedUp = true) :
    cleanup cfg s = s
    ∧ (∀ s2 : Session, cleanup cfg (cleanup cfg s2) = cleanup cfg s2)
    ∧ (∀ trace : List Event,
        (run cfg (initSession cfg) trace).effects.countP isKillF ≤ 1
        ∧ (run cfg (initSession cfg) trace).effects.countP isKillA ≤ 1)
    ∧ (∀ s2 : Session,
        (step cfg s2 .ffmpegError).resolved = true
        ∧ (step cfg s2 .ffmpegError).cleanedUp = true
        ∧ (step cfg s2 .ffmpegClose).resolved = true
        ∧ (step cfg s2 .ffmpegClose).cleanedUp = true) := by
  refine ⟨cleanup_noop cfg s hs, ?_, ?_, ?_⟩
  · intro s2
    exact cleanup_noop cfg (cleanup cfg s2) (cleanup_cleanedUp_true cfg s2)
  · intro trace
    have hinv := killInv_run cfg trace (initSession cfg) (killInv_init cfg)
    constructor
    · rw [hinv.1]; split <;> omega
    · rw [hinv.2]; split <;> omega
  · intro s2
    refine ⟨resolveSession_resolved _, ?_, resolveSession_resolved _, ?_⟩
    · show (resolveSession (cleanup cfg s2)).cleanedUp = true
      rw [(resolveSession_fields _).2.1]
      exact cleanup_cleanedUp_true cfg s2
    · show (resolveSession (cleanup cfg s2)).cleanedUp = true
      rw [(resolveSession_fields _).2.1]
      exact cleanup_cleanedUp_true cfg s2

/-- Witness for C7 on a concrete already-cleaned-up session. -/
theorem teardown_once_spec_witness :
    cleanup (mkConfig 4 "standard" true)
        { initSession (mkConfig 4 "standard" true) with cleanedUp := true }
      = { initSession (mkConfig 4 "standard" true) with cleanedUp := true }
    ∧ (step (mkConfig 4 "standard" true)
        (initSession (mkConfig 4 "standard" true)) .ffmpegClose).resolved = true := by
  have h := teardown_once_spec (mkConfig 4 "standard" true)
    { initSession (mkConfig 4 "standard" true) with cleanedUp := true } rfl
  exact ⟨h.1, (h.2.2.2 (initSession (mkConfig 4 "standard" true))).2.2.1⟩

/-! ### C8: one-time session setup on the first rendered frame -/

theorem renderFrame_firstFrame_false (cfg : Config) (s : Session) (f : List ℕ) :
    (renderFrame cfg s f).firstFrame = false := by
  unfold renderFrame
  by_cases h : s.firstFrame <;> simp [h]

theorem renderSeq_not_first (cfg : Config) (frames : List (List ℕ)) :
    ∀ s : Session, s.firstFrame = false →
      (frames.foldl (renderFrame cfg) s).effects
          = s.effects ++ frames.map (fun fr => Effect.renderBlob (renderBlobChars cfg fr))
      ∧ (frames.foldl (renderFrame cfg) s).firstFrame = false := by
  induction frames with
  | nil => intro s h; simp [h]
  | cons f tl ih =>
      intro s h
      rw [List.foldl_cons]
      obtain ⟨e1, e2⟩ := ih (renderFrame cfg s f) (renderFrame_firstFrame_false cfg s f)
      refine ⟨?_, e2⟩
      rw [e1, renderFrame_effects]
      simp [h, List.append_assoc]

/-- C8.  In a session whose first frame has not yet been rendered, rendering
a nonempty sequence of frames clears the screen and hides the cursor exactly
once, right before the first frame's blob, and every frame (first or later)
contributes exactly its blob, produced by the same rendering function. -/
theorem first_frame_setup_once (cfg : Config) (s : Session) (f : List ℕ)
    (rest : List (List ℕ)) (h : s.firstFrame = true) :
    ((f :: rest).foldl (renderFrame cfg) s).effects
        = s.effects ++ ([Effect.clearScreen, Effect.hideCursor,
              Effect.renderBlob (renderBlobChars cfg f)]
            ++ rest.map (fun fr => Effect.renderBlob (renderBlobChars cfg fr)))
    ∧ ((f :: rest).foldl (renderFrame cfg) s).firstFrame = false := by
  rw [List.foldl_cons]
  obtain ⟨e1, e2⟩ := renderSeq_not_first cfg rest (renderFrame cfg s f)
    (renderFrame_firstFrame_false cfg s f)
  refine ⟨?_, e2⟩
  rw [e1, renderFrame_effects]
  simp [h, List.append_assoc]

/-- Witness for C8: a fresh session rendering one all-black frame performs
exactly clear-screen, hide-cursor and the blob write. -/
theorem first_frame_setup_once_witness :
    (([List.replicate 12 0]).foldl (renderFrame (mkConfig 4 "standard" true))
        (initSession (mkConfig 4 "standard" true))).effects
      = [Effect.clearScreen, Effect.hideCursor,
          Effect.renderBlob (renderBlobChars (mkConfig 4 "standard" true) (List.replicate 12 0))]
    ∧ (([List.replicate 12 0]).foldl (renderFrame (mkConfig 4 "standard" true))
        (initSession (mkConfig 4 "standard" true))).firstFrame = false := by
  have h := first_frame_setup_once (mkConfig 4 "standard" true)
    (initSession (mkConfig 4 "standard" true)) (List.replicate 12 0) [] rfl
  exact ⟨h.1.trans (by simp [initSession]), h.2⟩

/-! ### C1: cancellation -/

set_option maxRecDepth 100000 in
/-- C1 counterexample.  A session at width 4 receives two frames in one
chunk, renders the first and queues a `setImmediate` step, then receives the
uppercase quit key: teardown runs (`cleanedUp` is set) but the second frame
is still in the queue, and when the already-scheduled immediate fires the
second frame IS rendered — the render count goes from 1 to 2 after
teardown, refuting the claim that no queued frame is ever processed after
cancel. -/
theorem cancel_renders_queued_frame :
    (run (mkConfig 4 "standard" true) (initSession (mkConfig 4 "standard" true))
        [.data (List.replicate 24 0), .key [81]]).cleanedUp = true
    ∧ (run (mkConfig 4 "standard" true) (initSession (mkConfig 4 "standard" true))
        [.data (List.replicate 24 0), .key [81]]).frameQueue ≠ []
    ∧ (run (mkConfig 4 "standard" true) (initSession (mkConfig 4 "standard" true))
        [.data (List.replicate 24 0), .key [81]]).effects.countP isRenderBlob = 1
    ∧ (run (mkConfig 4 "standard" true) (initSession (mkConfig 4 "standard" true))
        [.data (List.replicate 24 0), .key [81], .immediate]).effects.countP isRenderBlob
        = 2 := by
  decide

theorem step_resolveTimeout_resolved (cfg : Config) (s : Session)
    (h : s.pendingResolveTimeout = true) :
    (step cfg s .resolveTimeout).resolved = true := by
  show (if s.pendingResolveTimeout = true then
    resolveSession { s with pendingResolveTimeout := false } else s).resolved = true
  rw [if_pos h]
  exact resolveSession_resolved _

/-- C1 (amended).  On the cancel keystroke (interrupt byte or q/Q) in a
live session, teardown is initiated exactly as claimed: the one-shot flag is
set, both subprocesses receive their termination signal, and the promise
resolution is scheduled behind the grace delay and fires on the timer; but
the frame queue is NOT discarded, so frames queued at cancel time can still
be rendered by pending scheduled render steps (see the counterexample). -/
theorem cancel_teardown_amended (cfg : Config) (s : Session) (key : List ℕ)
    (hl : s.listenerAttached = true) (hc : s.cleanedUp = false)
    (hq : isQuitKey key = true) :
    (step cfg s (.key key)).cleanedUp = true
    ∧ (step cfg s (.key key)).ffmpegKilled = true
    ∧ (step cfg s (.key key)).audioKilled = true
    ∧ (step cfg s (.key key)).pendingResolveTimeout = true
    ∧ (step cfg s (.key key)).frameQueue = s.frameQueue
    ∧ (step cfg (step cfg s (.key key)) .resolveTimeout).resolved = true := by
  have hstep : step cfg s (.key key) = { cleanup cfg s with pendingResolveTimeout := true } := by
    show (if s.listenerAttached = true then onKeyPress cfg s key else s) = _
    rw [if_pos hl]
    unfold onKeyPress
    rw [if_pos hq]
  have hpend : (step cfg s (.key key)).pendingResolveTimeout = true := by rw [hstep]
  rw [hstep]
  have hk := cleanup_kills cfg s hc
  refine ⟨cleanup_cleanedUp_true cfg s, hk.1, hk.2, rfl, cleanup_frameQueue cfg s, ?_⟩
  rw [← hstep]
  exact step_resolveTimeout_resolved cfg _ hpend

/-- Witness for the amended C1 on a fresh session and the uppercase Q key. -/
theorem cancel_teardown_amended_witness :
    (step (mkConfig 4 "standard" true) (initSession (mkConfig 4 "standard" true))
        (.key [81])).cleanedUp = true
    ∧ (step (mkConfig 4 "standard" true) (initSession (mkConfig 4 "standard" true))
        (.key [81])).ffmpegKilled = true
    ∧ (step (mkConfig 4 "standard" true)
        (step (mkConfig 4 "standard" true) (initSession (mkConfig 4 "standard" true))
          (.key [81])) .resolveTimeout).resolved = true := by
  have h := cancel_teardown_amended (mkConfig 4 "standard" true)
    (initSession (mkConfig 4 "standard" true)) [81] rfl rfl (by decide)
  exact ⟨h.1, h.2.1, h.2.2.2.2.2⟩

/-! ### Helper lemmas about the charset table and the numeric pipeline -/

theorem charsFor_fallback (name : String) (h1 : name ≠ "standard") (h2 : name ≠ "simple")
    (h3 : name ≠ "blocks") (h4 : name ≠ "solid") : charsFor name = " .:-=+*#%@" := by
  have b1 : (name == "standard") = false := beq_eq_false_iff_ne.mpr h1
  have b2 : (name == "simple") = false := beq_eq_false_iff_ne.mpr h2
  have b3 : (name == "blocks") = false := beq_eq_false_iff_ne.mpr h3
  have b4 : (name == "solid") = false := beq_eq_false_iff_ne.mpr h4
  unfold charsFor CHARSETS
  simp [List.lookup, b1, b2, b3, b4]

theorem charsFor_cases (name : String) :
    charsFor name = " .:-=+*#%@" ∨ charsFor name = " .:+@"
    ∨ charsFor name = " ░▒▓█" ∨ charsFor name = "█" := by
  by_cases h1 : name = "standard"
  · subst h1; exact Or.inl (by decide)
  by_cases h2 : name = "simple"
  · subst h2; exact Or.inr (Or.inl (by decide))
  by_cases h3 : name = "blocks"
  · subst h3; exact Or.inr (Or.inr (Or.inl (by decide)))
  by_cases h4 : name = "solid"
  · subst h4; exact Or.inr (Or.inr (Or.inr (by decide)))
  exact Or.inl (charsFor_fallback name h1 h2 h3 h4)

theorem specIdxOfSum_eq (L s : ℕ) : specIdxOfSum L s = s * (L - 1) / 765 := by
  unfold specIdxOfSum
  generalize L - 1 = M
  have h : ((s : ℚ) / 3) / 255 * ((M : ℕ) : ℚ) = ((s * M : ℕ) : ℚ) / ((765 : ℕ) : ℚ) := by
    push_cast
    ring
  rw [h, Rat.floor_natCast_div_natCast]
  generalize s * M = K
  omega

theorem specHeight_eq (w : ℕ) : specHeight w = 99 * w / 320 := by
  unfold specHeight
  have h : (w : ℚ) * (9 / 16) * (55 / 100) = ((99 * w : ℕ) : ℚ) / ((320 : ℕ) : ℚ) := by
    push_cast
    ring
  rw [h, Rat.floor_natCast_div_natCast]
  generalize 99 * w = K
  omega

theorem c916_eq : jsDiv (9, 1) (16, 1) = (5066549580791808, 9007199254740992) := by decide

theorem c055_eq : roundFrac 55 100 = (4953959590107546, 9007199254740992) := by decide

theorem brightTable_eq :
    (List.range 766).map (fun s => jsDiv (s, 1) (3, 1)) = brightTable := by decide

theorem bright255Table_eq :
    brightTable.map (fun b => jsDiv b (255, 1)) = bright255Table := by decide

theorem idx10_final :
    bright255Table.map (fun b => floorD (jsMul b (9, 1)))
      = (List.range 766).map (fun s => if s = 425 then 4 else s * 9 / 765) := by decide

theorem idx5_final :
    bright255Table.map (fun b => floorD (jsMul b (4, 1)))
      = (List.range 766).map (fun s => s * 4 / 765) := by decide

theorem idx1_final :
    bright255Table.map (fun b => floorD (jsMul b (0, 1)))
      = (List.range 766).map (fun _ => 0) := by decide

theorem getD_map_range (f : ℕ → ℕ) (n s : ℕ) (h : s < n) :
    ((List.range n).map f).getD s 0 = f s := by
  have h1 : ((List.range n).map f)[s]? = some (f s) := by
    rw [List.getElem?_map, List.getElem?_range h]
    rfl
  simp [List.getD, h1]

theorem idx10_map :
    (List.range 766).map (fun s => idxOfSum 10 s)
      = (List.range 766).map (fun s => if s = 425 then 4 else s * 9 / 765) := by
  rw [← idx10_final, ← bright255Table_eq, ← brightTable_eq, List.map_map, List.map_map]
  rfl

theorem idx5_map :
    (List.range 766).map (fun s => idxOfSum 5 s)
      = (List.range 766).map (fun s => s * 4 / 765) := by
  rw [← idx5_final, ← bright255Table_eq, ← brightTable_eq, List.map_map, List.map_map]
  rfl

theorem idx1_map :
    (List.range 766).map (fun s => idxOfSum 1 s)
      = (List.range 766).map (fun _ => 0) := by
  rw [← idx1_final, ← bright255Table_eq, ← brightTable_eq, List.map_map, List.map_map]
  rfl

/-- Pointwise closed form of the double-precision glyph index for the
10-glyph ramp: it agrees with the exact formula `s * 9 / 765` everywhere
except at byte sum 425, where rounding loses one. -/
theorem idxOfSum_10_eq (s : ℕ) (h : s < 766) :
    idxOfSum 10 s = if s = 425 then 4 else s * 9 / 765 := by
  have l := getD_map_range (fun s => idxOfSum 10 s) 766 s h
  have r := getD_map_range (fun s => if s = 425 then 4 else s * 9 / 765) 766 s h
  rw [idx10_map] at l
  exact l.symm.trans r

/-- Pointwise closed form for the 5-glyph ramps: the double-precision index
agrees with the exact formula everywhere. -/
theorem idxOfSum_5_eq (s : ℕ) (h : s < 766) : idxOfSum 5 s = s * 4 / 765 := by
  have l := getD_map_range (fun s => idxOfSum 5 s) 766 s h
  have r := getD_map_range (fun s => s * 4 / 765) 766 s h
  rw [idx5_map] at l
  exact l.symm.trans r

/-- Pointwise closed form for the single-glyph ramp: the index is always 0. -/
theorem idxOfSum_1_eq (s : ℕ) (h : s < 766) : idxOfSum 1 s = 0 := by
  have l := getD_map_range (fun s => idxOfSum 1 s) 766 s h
  have r := getD_map_range (fun _ => 0) 766 s h
  rw [idx1_map] at l
  exact l.symm.trans r

theorem idx_lt_10 (s : ℕ) (h : s < 766) : idxOfSum 10 s < 10 := by
  rw [idxOfSum_10_eq s h]
  split <;> omega

theorem idx_lt_5 (s : ℕ) (h : s < 766) : idxOfSum 5 s < 5 := by
  rw [idxOfSum_5_eq s h]
  omega

theorem idx_lt_1 (s : ℕ) (h : s < 766) : idxOfSum 1 s < 1 := by
  rw [idxOfSum_1_eq s h]
  omega

theorem heightMulTable_eq0 :
    (List.range' 0 512).map (fun w => jsMul (w, 1) (5066549580791808, 9007199254740992))
      = heightMulTable0 := by decide

theorem heightMulTable_eq1 :
    (List.range' 512 513).map (fun w => jsMul (w, 1) (5066549580791808, 9007199254740992))
      = heightMulTable1 := by decide

theorem heightMulTable_eq :
    (List.range 1025).map (fun w => jsMul (w, 1) (5066549580791808, 9007199254740992))
      = heightMulTable := by
  rw [List.range_eq_range', ← List.range'_append_1 0 512 513, List.map_append,
    heightMulTable_eq0, heightMulTable_eq1]
  rfl

theorem height_final0 :
    heightMulTable0.map (fun b => floorD (jsMul b (4953959590107546, 9007199254740992)))
      = (List.range' 0 512).map (fun w => 99 * w / 320) := by decide

theorem height_final1 :
    heightMulTable1.map (fun b => floorD (jsMul b (4953959590107546, 9007199254740992)))
      = (List.range' 512 513).map (fun w => 99 * w / 320) := by decide

theorem height_final :
    heightMulTable.map (fun b => floorD (jsMul b (4953959590107546, 9007199254740992)))
      = (List.range 1025).map (fun w => 99 * w / 320) := by
  show (heightMulTable0 ++ heightMulTable1).map _ = _
  rw [List.map_append, height_final0, height_final1, ← List.map_append,
    List.range'_append_1 0 512 513, ← List.range_eq_range']

theorem height_map :
    (List.range 1025).map (fun w => jsHeight w)
      = (List.range 1025).map (fun w => 99 * w / 320) := by
  have h1 : (List.range 1025).map (fun w => jsHeight w)
      = (List.range 1025).map (fun w =>
          floorD (jsMul (jsMul (w, 1) (5066549580791808, 9007199254740992))
            (4953959590107546, 9007199254740992))) := by
    simp only [jsHeight, c916_eq, c055_eq]
  rw [h1, ← height_final, ← heightMulTable_eq, List.map_map]
  rfl

/-- Pointwise closed form of the double-precision derived height for all
widths up to 1024: it agrees with the exact formula `99 * w / 320`. -/
theorem jsHeight_eq (w : ℕ) (h : w < 1025) : jsHeight w = 99 * w / 320 := by
  have l := getD_map_range (fun w => jsHeight w) 1025 w h
  have r := getD_map_range (fun w => 99 * w / 320) 1025 w h
  rw [height_map] at l
  exact l.symm.trans r

/-! ### C3: the brightness-to-glyph mapping -/

/-- C3 counterexample.  At the pixel (255, 170, 0) — byte sum 425 — with
the standard 10-glyph ramp, the double-precision pipeline of the source
yields glyph index 4, while the claimed formula
`floor(brightness/255 * (rampLength-1))`, read in exact arithmetic, yields
5: the renderer does not implement the claimed formula exactly. -/
theorem glyph_index_float_deviation :
    (charsFor "standard").length = 10
    ∧ jsCharIndex 10 255 170 0 = 4
    ∧ specIdxOfSum 10 (255 + 170 + 0) = 5
    ∧ jsCharIndex 10 255 170 0 ≠ specIdxOfSum 10 (255 + 170 + 0) := by
  have h2 : specIdxOfSum 10 (255 + 170 + 0) = 5 := (specIdxOfSum_eq 10 _).trans (by decide)
  refine ⟨by decide, by decide, h2, ?_⟩
  rw [h2]
  decide

/-- C3 (amended).  For every ramp the program can select (their lengths are
10, 5 and 1): brightness 0 maps to index 0, brightness 255 (byte sum 765)
maps to the last index, the index is monotone in the byte sum, and the
double-precision index agrees with the exact formula
`floor(brightness/255 * (rampLength-1))` for every pixel except those with
byte sum 425 on the 10-glyph ramp, where the double rounding yields 4
instead of 5. -/
theorem glyph_index_amended (L : ℕ) (hL : L = 10 ∨ L = 5 ∨ L = 1) :
    (∀ name : String, (charsFor name).length = 10 ∨ (charsFor name).length = 5
        ∨ (charsFor name).length = 1)
    ∧ idxOfSum L 0 = 0
    ∧ idxOfSum L 765 = L - 1
    ∧ (∀ s1 s2, s1 ≤ s2 → s2 ≤ 765 → idxOfSum L s1 ≤ idxOfSum L s2)
    ∧ (∀ r g b : ℕ, r ≤ 255 → g ≤ 255 → b ≤ 255 →
        jsCharIndex L r g b = specIdxOfSum L (r + g + b) ∨ (L = 10 ∧ r + g + b = 425)) := by
  refine ⟨?_, ?_, ?_, ?_, ?_⟩
  · intro name
    rcases charsFor_cases name with h | h | h | h
    · left; rw [h]; decide
    · right; left; rw [h]; decide
    · right; left; rw [h]; decide
    · right; right; rw [h]; decide
  · rcases hL with h | h | h <;> subst h
    · rw [idxOfSum_10_eq 0 (by omega)]; decide
    · rw [idxOfSum_5_eq 0 (by omega)]
    · rw [idxOfSum_1_eq 0 (by omega)]
  · rcases hL with h | h | h <;> subst h
    · rw [idxOfSum_10_eq 765 (by omega)]; decide
    · rw [idxOfSum_5_eq 765 (by omega)]
    · rw [idxOfSum_1_eq 765 (by omega)]
  · rcases hL with h | h | h <;> subst h <;> intro s1 s2 h12 h2B
    · rw [idxOfSum_10_eq s1 (by omega), idxOfSum_10_eq s2 (by omega)]
      split_ifs <;> omega
    · rw [idxOfSum_5_eq s1 (by omega), idxOfSum_5_eq s2 (by omega)]
      omega
    · rw [idxOfSum_1_eq s1 (by omega), idxOfSum_1_eq s2 (by omega)]
  · intro r g b hr hg hb
    rcases hL with h | h | h <;> subst h
    · by_cases h425 : r + g + b = 425
      · right
        exact ⟨rfl, h425⟩
      · left
        show idxOfSum 10 (r + g + b) = _
        rw [idxOfSum_10_eq (r + g + b) (by omega), if_neg h425, specIdxOfSum_eq]
    · left
      show idxOfSum 5 (r + g + b) = _
      rw [idxOfSum_5_eq (r + g + b) (by omega), specIdxOfSum_eq]
    · left
      show idxOfSum 1 (r + g + b) = _
      rw [idxOfSum_1_eq (r + g + b) (by omega), specIdxOfSum_eq]
      omega

/-- Witness for the amended C3 on the standard 10-glyph ramp. -/
theorem glyph_index_amended_witness :
    idxOfSum 10 0 = 0 ∧ idxOfSum 10 765 = 9 ∧ idxOfSum 10 100 ≤ idxOfSum 10 200 := by
  have h := glyph_index_amended 10 (Or.inl rfl)
  exact ⟨h.2.1, h.2.2.1, h.2.2.2.1 100 200 (by decide) (by decide)⟩

/-! ### C5: ramp lengths and index bounds -/

/-- C5 counterexample.  The table entry "solid" holds the single-character
ramp, so not every selectable ramp has at least 2 characters. -/
theorem solid_ramp_single_char :
    ("solid", "█") ∈ CHARSETS
    ∧ (charsFor "solid").length = 1
    ∧ ¬ 2 ≤ (charsFor "solid").length := by decide

/-- C5 (amended).  The standard, simple and blocks ramps have 10, 5 and 5
characters; the solid ramp has exactly 1 (every table entry other than
solid has at least 2); and for every selectable ramp and every pixel with
bytes in [0,255] the computed glyph index is strictly within the ramp, so
no out-of-bounds access occurs. -/
theorem ramp_index_in_bounds (name : String) (r g b : ℕ)
    (hr : r ≤ 255) (hg : g ≤ 255) (hb : b ≤ 255) :
    (charsFor "standard").length = 10
    ∧ (charsFor "simple").length = 5
    ∧ (charsFor "blocks").length = 5
    ∧ (charsFor "solid").length = 1
    ∧ (∀ p ∈ CHARSETS, p.2 = "█" ∨ 2 ≤ p.2.length)
    ∧ jsCharIndex (charsFor name).length r g b < (charsFor name).length := by
  refine ⟨by decide, by decide, by decide, by decide, by decide, ?_⟩
  rcases charsFor_cases name with h | h | h | h <;> rw [h]
  · exact idx_lt_10 (r + g + b) (by omega)
  · exact idx_lt_5 (r + g + b) (by omega)
  · exact idx_lt_5 (r + g + b) (by omega)
  · exact idx_lt_1 (r + g + b) (by omega)

/-- Witness for the amended C5 at the standard ramp and a black pixel. -/
theorem ramp_index_in_bounds_witness :
    jsCharIndex (charsFor "standard").length 0 0 0 < (charsFor "standard").length
    ∧ (charsFor "solid").length = 1 := by
  have h := ramp_index_in_bounds "standard" 0 0 0 (by decide) (by decide) (by decide)
  exact ⟨h.2.2.2.2.2, h.2.2.2.1⟩

/-! ### C9: the derived height and frame size -/

/-- C9 counterexample.  At width 644145491245802 (representable exactly in
binary64) the double-precision evaluation of `width * (9/16) * 0.55` floors
to 199282511354170 while the exact formula floors to 199282511354169, so
the claimed identity does not hold for every positive integer width. -/
theorem derived_height_float_deviation :
    jsHeight 644145491245802 = 199282511354170
    ∧ specHeight 644145491245802 = 199282511354169
    ∧ jsHeight 644145491245802 ≠ specHeight 644145491245802 := by
  have h2 : specHeight 644145491245802 = 199282511354169 :=
    (specHeight_eq _).trans (by decide)
  refine ⟨by decide, h2, ?_⟩
  rw [h2]
  decide

/-- C9 (amended).  For every positive width up to 1024 (any realistic
terminal width; the deviation needs widths around 6·10^14) the derived
height equals `floor(width * 9/16 * 0.55)`, which in turn equals
`99*width/320`, and the frame size is `width*height*3`; in particular
width 80 gives height 24 and frame size 5760. -/
theorem derived_height_amended (w : ℕ) (h1 : 0 < w) (h2 : w ≤ 1024) :
    jsHeight w = specHeight w
    ∧ specHeight w = 99 * w / 320
    ∧ frameSizeOf w (jsHeight w) = w * (99 * w / 320) * 3
    ∧ jsHeight 80 = 24
    ∧ frameSizeOf 80 (jsHeight 80) = 5760 := by
  have hspec := specHeight_eq w
  have hjs : jsHeight w = 99 * w / 320 := jsHeight_eq w (by omega)
  refine ⟨hjs.trans hspec.symm, hspec, ?_, by decide, by decide⟩
  unfold frameSizeOf
  rw [hjs]

/-- Witness for the amended C9 at the spec's example width 80. -/
theorem derived_height_amended_witness :
    jsHeight 80 = specHeight 80 ∧ jsHeight 80 = 24
    ∧ frameSizeOf 80 (jsHeight 80) = 5760 := by
  have h := derived_height_amended 80 (by decide) (by decide)
  exact ⟨h.1, h.2.2.2.1, h.2.2.2.2⟩

/-! ### C10: charset fallback -/

theorem getD_mem_of_lt (l : JStr) (n : ℕ) (h : n < l.length) : l.getD n ' ' ∈ l := by
  rw [List.getD_eq_getElem l ' ' h]
  exact List.getElem_mem h

theorem charsets_lookup_none (name : String) (h1 : name ≠ "standard")
    (h2 : name ≠ "simple") (h3 : name ≠ "blocks") (h4 : name ≠ "solid") :
    CHARSETS.lookup name = none := by
  have b1 : (name == "standard") = false := beq_eq_false_iff_ne.mpr h1
  have b2 : (name == "simple") = false := beq_eq_false_iff_ne.mpr h2
  have b3 : (name == "blocks") = false := beq_eq_false_iff_ne.mpr h3
  have b4 : (name == "solid") = false := beq_eq_false_iff_ne.mpr h4
  unfold CHARSETS
  simp [List.lookup, b1, b2, b3, b4]

theorem charsSelected_str_cases (nm ramp : String)
    (h : charsSelected nm = JSValue.str ramp) :
    ramp = " .:-=+*#%@" ∨ ramp = " .:+@" ∨ ramp = " ░▒▓█" ∨ ramp = "█" := by
  by_cases h1 : nm = "standard"
  · subst h1
    have he := h.symm.trans
      (show charsSelected "standard" = JSValue.str " .:-=+*#%@" from by decide)
    injection he with he'
    exact Or.inl he'
  by_cases h2 : nm = "simple"
  · subst h2
    have he := h.symm.trans
      (show charsSelected "simple" = JSValue.str " .:+@" from by decide)
    injection he with he'
    exact Or.inr (Or.inl he')
  by_cases h3 : nm = "blocks"
  · subst h3
    have he := h.symm.trans
      (show charsSelected "blocks" = JSValue.str " ░▒▓█" from by decide)
    injection he with he'
    exact Or.inr (Or.inr (Or.inl he'))
  by_cases h4 : nm = "solid"
  · subst h4
    have he := h.symm.trans
      (show charsSelected "solid" = JSValue.str "█" from by decide)
    injection he with he'
    exact Or.inr (Or.inr (Or.inr he'))
  by_cases h5 : nm ∈ objectProtoProps
  · have hi : charsSelected nm = JSValue.inherited := by
      unfold charsSelected charsetAccess
      rw [charsets_lookup_none nm h1 h2 h3 h4]
      simp [h5]
    rw [hi] at h
    simp at h
  · have hs : charsSelected nm = JSValue.str " .:-=+*#%@" := by
      unfold charsSelected charsetAccess
      rw [charsets_lookup_none nm h1 h2 h3 h4]
      simp [h5]
    have he := h.symm.trans hs
    injection he with he'
    exact Or.inl he'

theorem charsSelected_eq_charsFor (nm : String) (h5 : nm ∉ objectProtoProps) :
    charsSelected nm = JSValue.str (charsFor nm) := by
  by_cases h1 : nm = "standard"
  · subst h1; decide
  by_cases h2 : nm = "simple"
  · subst h2; decide
  by_cases h3 : nm = "blocks"
  · subst h3; decide
  by_cases h4 : nm = "solid"
  · subst h4; decide
  rw [charsFor_fallback nm h1 h2 h3 h4]
  unfold charsSelected charsetAccess
  rw [charsets_lookup_none nm h1 h2 h3 h4]
  simp [h5]

/-- C10 counterexample.  The name "constructor" is arbitrary text that is
none of the table's own keys, yet the bracket access hits the property
inherited from `Object.prototype`, a truthy non-string value, so
`CHARSETS[name] || CHARSETS.standard` keeps it: the renderer does NOT fall
back to the standard ramp, and the selection is not a string ramp at all —
refuting the claim's quantification over arbitrary text. -/
theorem charset_proto_no_fallback :
    "constructor" ∉ CHARSETS.map Prod.fst
    ∧ charsSelected "constructor" = JSValue.inherited
    ∧ charsSelected "constructor" ≠ JSValue.str " .:-=+*#%@"
    ∧ charsSelected "constructor" ≠ JSValue.str (charsFor "constructor") := by
  decide

/-- C10 (amended).  A charset name that is neither one of the table's own
keys nor a property name inherited from `Object.prototype` (arbitrary text
outside that fixed list, including the empty string of a missing setting)
selects the standard ramp; named keys select their own ramps; outside the
inherited names the full bracket-access selection agrees with the own-key
model `charsFor` used by the renderer configuration; and whenever the
selection is a string ramp at all, the glyph emitted for any pixel with
bytes in [0,255] is a character of that selected-or-fallback ramp.  (For the
inherited names themselves the code does not fall back — see the
counterexample.) -/
theorem charset_fallback_amended (name : String) (r g b : ℕ)
    (h1 : name ≠ "standard") (h2 : name ≠ "simple") (h3 : name ≠ "blocks")
    (h4 : name ≠ "solid") (h5 : name ∉ objectProtoProps)
    (hr : r ≤ 255) (hg : g ≤ 255) (hb : b ≤ 255) :
    charsSelected name = JSValue.str " .:-=+*#%@"
    ∧ charsSelected "" = JSValue.str " .:-=+*#%@"
    ∧ charsSelected "standard" = JSValue.str " .:-=+*#%@"
    ∧ charsSelected "blocks" = JSValue.str " ░▒▓█"
    ∧ (∀ nm ramp : String, charsSelected nm = JSValue.str ramp →
        ramp.data.getD (jsCharIndex ramp.length r g b) ' ' ∈ ramp.data)
    ∧ (∀ nm : String, nm ∉ objectProtoProps →
        charsSelected nm = JSValue.str (charsFor nm)) := by
  refine ⟨?_, by decide, by decide, by decide, ?_, fun nm h => charsSelected_eq_charsFor nm h⟩
  · unfold charsSelected charsetAccess
    rw [charsets_lookup_none name h1 h2 h3 h4]
    simp [h5]
  · intro nm ramp hsel
    rcases charsSelected_str_cases nm ramp hsel with h | h | h | h <;> subst h
    · exact getD_mem_of_lt _ _ (idx_lt_10 (r + g + b) (by omega))
    · exact getD_mem_of_lt _ _ (idx_lt_5 (r + g + b) (by omega))
    · exact getD_mem_of_lt _ _ (idx_lt_5 (r + g + b) (by omega))
    · exact getD_mem_of_lt _ _ (idx_lt_1 (r + g + b) (by omega))

/-- Witness for the amended C10 at the unknown charset name "wat" and a
black pixel. -/
theorem charset_fallback_amended_witness :
    charsSelected "wat" = JSValue.str " .:-=+*#%@"
    ∧ charsSelected "solid" = JSValue.str (charsFor "solid")
    ∧ (" .:-=+*#%@".data.getD
        (jsCharIndex " .:-=+*#%@".length 0 0 0) ' ' ∈ " .:-=+*#%@".data) := by
  have h := charset_fallback_amended "wat" 0 0 0 (by decide) (by decide) (by decide)
    (by decide) (by decide) (by decide) (by decide) (by decide)
  exact ⟨h.1, h.2.2.2.2.2 "solid" (by decide), h.2.2.2.2.1 "wat" " .:-=+*#%@" h.1⟩

/-! ### C6: the structure of one rendered frame -/

theorem foldl_append_eq {α β : Type} (f : α → List β) (l : List α) (init : List β) :
    l.foldl (fun acc x => acc ++ f x) init = init ++ (l.map f).flatten := by
  induction l generalizing init with
  | nil => simp
  | cons a tl ih =>
      rw [List.foldl_cons, ih]
      simp [List.append_assoc]

theorem getD_replicate_zero (n : ℕ) :
    ∀ i : ℕ, (List.replicate n (0 : ℕ)).getD i 0 = 0 := by
  induction n with
  | zero => intro i; rfl
  | succ n ih =>
      intro i
      cases i with
      | zero => rfl
      | succ j => exact ih j

/-- C6.  The blob written for one frame is exactly: the cursor-home escape,
then for each of the `height` rows the per-pixel 24-bit colour escapes (with
that pixel's exact R, G, B) each followed by its glyph, a newline after each
row, and finally the colour-reset escape.  On an all-black frame every cell
is the escape `ESC[38;2;0;0;0m` followed by the ramp's first character, as
the concrete 4x1 instance spells out. -/
theorem render_blob_structure (cfg : Config) (frame : List ℕ) :
    renderBlobChars cfg frame = specBlobChars cfg frame
    ∧ (∀ (chars : JStr) (w y x n : ℕ),
        renderCell chars (List.replicate n 0) w y x
          = colorEscape 0 0 0 ++ [chars.getD (idxOfSum chars.length 0) ' '])
    ∧ idxOfSum 10 0 = 0
    ∧ renderBlobChars (mkConfig 4 "standard" true) (List.replicate 12 0)
        = ("\x1b[H\x1b[38;2;0;0;0m \x1b[38;2;0;0;0m \x1b[38;2;0;0;0m \x1b[38;2;0;0;0m \n\x1b[0m").data := by
  refine ⟨?_, ?_, by decide, by decide⟩
  · unfold renderBlobChars specBlobChars
    rw [show (fun (acc : JStr) (y : ℕ) =>
          ((List.range cfg.width).foldl
            (fun acc2 x => acc2 ++ renderCell cfg.chars frame cfg.width y x) acc)
            ++ "\n".data)
        = (fun (acc : JStr) (y : ℕ) =>
          acc ++ (((List.range cfg.width).map
              (fun x => renderCell cfg.chars frame cfg.width y x)).flatten ++ "\n".data))
        from funext fun acc => funext fun y => by
          rw [foldl_append_eq]
          simp [List.append_assoc]]
    rw [foldl_append_eq]
  · intro chars w y x n
    simp only [renderCell, getD_replicate_zero, Nat.add_zero]

end Serika
